import Mathlib

/-!
Verification of the weblighttag feature-to-pose pipeline.

This file shallowly embeds the algorithmic core of the repository
(per-feature 1D Kalman tracker, geometric 5-LED matcher, strip-aware
geometry matcher, DLT + Levenberg-Marquardt PnP solver, peak detector)
as executable Lean definitions over `ℚ`, and proves the spec's claims
about them.

Modelling conventions:
* JavaScript `number` is modelled by `ℚ`.  Where JS would produce `NaN`
  (division `0/0`) and that `NaN` is observable, the embedding uses
  `Option ℚ` with `none` standing for `NaN`.
* Transcendental JS `Math` functions (`sqrt`, `cos`, `sin`, `acos`,
  `atan2`, the constant `PI`) are threaded as an explicit record of
  abstract functions `JsMath`; theorems hold for every such record.
* JS objects used as string-keyed dictionaries are modelled as total
  functions `String → α` with pointwise update.
-/

namespace WebLightTag

/-- Abstract record of the JS `Math` primitives the pipeline uses.
Theorems are stated for an arbitrary such record. -/
structure JsMath where
  sqrt : ℚ → ℚ
  cos : ℚ → ℚ
  sin : ℚ → ℚ
  acos : ℚ → ℚ
  atan2 : ℚ → ℚ → ℚ
  pi : ℚ

/-- A trivial instantiation of the `Math` primitives, used only to
instantiate witnesses at concrete inputs. -/
def trivMath : JsMath :=
  { sqrt := fun _ => 0, cos := fun _ => 0, sin := fun _ => 0
    acos := fun _ => 0, atan2 := fun _ _ => 0, pi := 0 }

/-- `Math.hypot dx dy` = `sqrt (dx² + dy²)`. -/
def JsMath.hypot (m : JsMath) (dx dy : ℚ) : ℚ := m.sqrt (dx * dx + dy * dy)

/-- Pointwise update of a string-keyed dictionary. -/
def fupd {α : Type} (f : String → α) (k : String) (v : α) : String → α :=
  fun k' => if k' = k then v else f k'

-- ===================================================================
-- Tracker (src/unnamed/part_000, first `SimpleKalman` / `LEDTracker`)
-- ===================================================================

/-- State of one scalar Kalman filter (JS class `SimpleKalman`).
`q`/`r` are the JS fields `Q`/`R`; `inited` is the JS field
`initialized`. -/
structure SimpleKalman where
  q : ℚ
  r : ℚ
  x : ℚ
  p : ℚ
  inited : Bool

/-- JS `new SimpleKalman(processNoise, measurementNoise)`. -/
def SimpleKalman.init (processNoise measurementNoise : ℚ) : SimpleKalman :=
  { q := processNoise, r := measurementNoise, x := 0, p := 1, inited := false }

/-- JS `SimpleKalman.update(measurement)`: returns the filtered estimate
together with the new filter state. -/
def SimpleKalman.update (k : SimpleKalman) (measurement : ℚ) : ℚ × SimpleKalman :=
  if k.inited = false then
    (measurement, { k with x := measurement, p := 1, inited := true })
  else
    let pPred := k.p + k.q
    let gain := pPred / (pPred + k.r)
    let x' := k.x + gain * (measurement - k.x)
    let p' := (1 - gain) * pPred
    (x', { k with x := x', p := p' })

/-- JS `SimpleKalman.predict()`: current estimate, no state change. -/
def SimpleKalman.predict (k : SimpleKalman) : ℚ := k.x

/-- Modelled from the spec's words (§4.4, claim C5): first call per
filter initializes state to the raw measurement with unit covariance;
subsequent calls perform predicted covariance = prior + process noise;
gain = predicted / (predicted + measurement noise);
state += gain × (measurement − state); covariance = (1 − gain) × predicted. -/
def kalmanSpecUpdate (k : SimpleKalman) (measurement : ℚ) : SimpleKalman :=
  if k.inited = false then
    { k with x := measurement, p := 1, inited := true }
  else
    let predCov := k.p + k.q
    let gain := predCov / (predCov + k.r)
    { k with x := k.x + gain * (measurement - k.x), p := (1 - gain) * predCov }

/-- One detection passed to `LEDTracker.update`. -/
structure Detection where
  id : String
  x : ℚ
  y : ℚ

/-- One entry of the `tracked` array returned by `LEDTracker.update`. -/
structure TrackedPoint where
  id : String
  x : ℚ
  y : ℚ
  detected : Bool
  predicted : Bool

/-- State of the JS class `LEDTracker` (the dynamic-feature-id variant). -/
structure LEDTracker where
  processNoise : ℚ
  measurementNoise : ℚ
  maxLostFrames : ℕ
  minTrackingFeatures : ℕ
  featureIds : List String
  filters : String → SimpleKalman × SimpleKalman
  lostCount : String → ℕ
  lastPositions : String → Option (ℚ × ℚ)
  isTracking : Bool
  consecutiveLost : ℕ

/-- Result record of `LEDTracker.update`.  `stability` is `none` exactly
when the JS division `trackedCount / this.featureIds.length` is `0/0`,
i.e. produces `NaN` (empty recognized-feature-id set). -/
structure UpdateResult where
  tracked : List TrackedPoint
  isTracking : Bool
  stability : Option ℚ

/-- Body of the per-feature-id loop of `LEDTracker.update`.  The
accumulator carries the `tracked` array, `trackedCount`, and the
mutated tracker state. -/
def LEDTracker.processOne (dets : List Detection)
    (acc : List TrackedPoint × ℕ × LEDTracker) (id : String) :
    List TrackedPoint × ℕ × LEDTracker :=
  let tracked := acc.1
  let cnt := acc.2.1
  let st := acc.2.2
  match dets.find? (fun p => p.id == id) with
  | some det =>
    let ux := (st.filters id).1.update det.x
    let uy := (st.filters id).2.update det.y
    let st' := { st with
      filters := fupd st.filters id (ux.2, uy.2)
      lostCount := fupd st.lostCount id 0
      lastPositions := fupd st.lastPositions id (some (ux.1, uy.1)) }
    (tracked ++ [⟨id, ux.1, uy.1, true, false⟩], cnt + 1, st')
  | none =>
    let lc := st.lostCount id + 1
    let st' := { st with lostCount := fupd st.lostCount id lc }
    if lc ≤ st.maxLostFrames ∧ (st.lastPositions id).isSome = true then
      let fx := (st.filters id).1.predict
      let fy := (st.filters id).2.predict
      (tracked ++ [⟨id, fx, fy, false, true⟩], cnt + 1, st')
    else
      (tracked, cnt, st')

/-- JS `LEDTracker.update(detectedPoints)`. -/
def LEDTracker.update (st : LEDTracker) (dets : List Detection) :
    UpdateResult × LEDTracker :=
  let folded := st.featureIds.foldl (LEDTracker.processOne dets) ([], 0, st)
  let tracked := folded.1
  let cnt := folded.2.1
  let st1 := folded.2.2
  let st2 :=
    if st1.minTrackingFeatures ≤ cnt then
      { st1 with consecutiveLost := 0, isTracking := true }
    else
      let cl := st1.consecutiveLost + 1
      { st1 with consecutiveLost := cl
                 isTracking := if st1.maxLostFrames < cl then false else st1.isTracking }
  let stability : Option ℚ :=
    if st.featureIds.length = 0 then none
    else some ((cnt : ℚ) / (st.featureIds.length : ℚ))
  ({ tracked := tracked, isTracking := st2.isTracking, stability := stability }, st2)

/-- Repeated application of `update` with an empty detection list:
`iterEmpty k st` is the tracker state after `k` zero-detection frames. -/
def iterEmpty : ℕ → LEDTracker → LEDTracker
  | 0, st => st
  | k + 1, st => ((iterEmpty k st).update []).2

/-- A concrete tracker in the "previously fully tracked" condition:
four recognized features, default `maxLostFrames = 3` and
`minTrackingFeatures = 4`, every feature with a last known position and
zero lost-count. -/
def demoTracker : LEDTracker :=
  { processNoise := 1/200
    measurementNoise := 1/2
    maxLostFrames := 3
    minTrackingFeatures := 4
    featureIds := ["LED1", "LED2", "LED3", "LED4"]
    filters := fun _ =>
      ({ q := 1/200, r := 1/2, x := 1/2, p := 1/4, inited := true },
       { q := 1/200, r := 1/2, x := 1/2, p := 1/4, inited := true })
    lostCount := fun _ => 0
    lastPositions := fun _ => some (1/2, 1/2)
    isTracking := true
    consecutiveLost := 0 }

/-- A tracker whose recognized-feature-id set is empty (reachable in JS
via `new LEDTracker({featureIds: []})` — `[]` is truthy — or via
`setFeatureIds([])`). -/
def emptyIdTracker : LEDTracker :=
  { demoTracker with featureIds := [] }

lemma processOne_cnt_len (dets : List Detection)
    (acc : List TrackedPoint × ℕ × LEDTracker) (id : String)
    (h : acc.2.1 = acc.1.length) :
    (LEDTracker.processOne dets acc id).2.1
      = (LEDTracker.processOne dets acc id).1.length := by
  unfold LEDTracker.processOne
  cases hf : dets.find? (fun p => p.id == id) with
  | some det => simp only [hf]; simp [h]
  | none =>
    simp only [hf]
    split <;> simp [h]

lemma processOne_cnt_le (dets : List Detection)
    (acc : List TrackedPoint × ℕ × LEDTracker) (id : String) :
    (LEDTracker.processOne dets acc id).2.1 ≤ acc.2.1 + 1 := by
  unfold LEDTracker.processOne
  cases hf : dets.find? (fun p => p.id == id) with
  | some det => simp only [hf]; simp
  | none =>
    simp only [hf]
    split <;> simp

lemma fold_cnt_len (dets : List Detection) (ids : List String) :
    ∀ acc : List TrackedPoint × ℕ × LEDTracker, acc.2.1 = acc.1.length →
      (ids.foldl (LEDTracker.processOne dets) acc).2.1
        = (ids.foldl (LEDTracker.processOne dets) acc).1.length := by
  induction ids with
  | nil => intro acc h; simpa using h
  | cons id rest ih =>
    intro acc h
    simpa using ih (LEDTracker.processOne dets acc id) (processOne_cnt_len dets acc id h)

lemma fold_cnt_le (dets : List Detection) (ids : List String) :
    ∀ acc : List TrackedPoint × ℕ × LEDTracker,
      (ids.foldl (LEDTracker.processOne dets) acc).2.1 ≤ acc.2.1 + ids.length := by
  induction ids with
  | nil => intro acc; simp
  | cons id rest ih =>
    intro acc
    have h1 := ih (LEDTracker.processOne dets acc id)
    have h2 := processOne_cnt_le dets acc id
    simp only [List.foldl_cons, List.length_cons]
    omega

/-- C5: each scalar Kalman filter's `update` agrees with the spec's
predict-update equations (`kalmanSpecUpdate`), both in the new filter
state and in the returned estimate. -/
theorem c5_kalman_update_matches_spec (k : SimpleKalman) (m : ℚ) :
    (k.update m).2 = kalmanSpecUpdate k m ∧ (k.update m).1 = (kalmanSpecUpdate k m).x := by
  unfold SimpleKalman.update kalmanSpecUpdate
  by_cases h : k.inited = false <;> simp [h]

/-- C7 (amended): whenever the recognized-feature-id set is nonempty,
every `update` call returns `stability = trackedCount / featureIds.length`
and that value lies in `[0, 1]`.  (With an empty id set the JS division
is `0/0 = NaN`, modelled here as `stability = none`.) -/
theorem c7_stability_formula_and_bounds (st : LEDTracker) (dets : List Detection)
    (h : st.featureIds ≠ []) :
    ((st.update dets).1.stability
        = some (((st.update dets).1.tracked.length : ℚ) / (st.featureIds.length : ℚ)))
    ∧ ∃ q : ℚ, (st.update dets).1.stability = some q ∧ 0 ≤ q ∧ q ≤ 1 := by
  have hN : st.featureIds.length ≠ 0 := by
    intro hlen; exact h (List.length_eq_zero.mp hlen)
  have hlen := fold_cnt_len dets st.featureIds ([], 0, st) rfl
  have hle := fold_cnt_le dets st.featureIds ([], 0, st)
  simp only at hle
  constructor
  · simp only [LEDTracker.update, hN, if_false, ite_false, hlen]
  · refine ⟨((st.featureIds.foldl (LEDTracker.processOne dets) ([], 0, st)).2.1 : ℚ)
      / (st.featureIds.length : ℚ), ?_, ?_, ?_⟩
    · simp only [LEDTracker.update, hN, if_false, ite_false]
    · exact div_nonneg (Nat.cast_nonneg _) (Nat.cast_nonneg _)
    · rw [div_le_one (by exact_mod_cast Nat.pos_of_ne_zero hN)]
      have hle' : (st.featureIds.foldl (LEDTracker.processOne dets) ([], 0, st)).2.1
          ≤ st.featureIds.length := by omega
      exact_mod_cast hle'

/-- C7 witness: the stability formula and bounds at a concrete tracker
with four recognized feature ids and an empty detection list. -/
theorem c7_stability_witness :
    demoTracker.featureIds ≠ [] ∧
    (((demoTracker.update []).1.stability
        = some (((demoTracker.update []).1.tracked.length : ℚ) / (demoTracker.featureIds.length : ℚ)))
      ∧ ∃ q : ℚ, (demoTracker.update []).1.stability = some q ∧ 0 ≤ q ∧ q ≤ 1) :=
  ⟨by decide, c7_stability_formula_and_bounds demoTracker [] (by decide)⟩

/-- C7 counterexample: with an empty recognized-feature-id set
(constructible in JS, where `[]` is truthy, or via `setFeatureIds([])`),
the JS stability `0/0` is `NaN` — modelled as `none` — which neither
equals a rational value nor lies in `[0, 1]`. -/
theorem c7_counterexample :
    (emptyIdTracker.update []).1.stability = none := rfl

lemma fold_empty (ids : List String) :
    ∀ (tr : List TrackedPoint) (cnt : ℕ) (s : LEDTracker) (c : ℕ),
      ids.Nodup →
      (∀ id ∈ ids, s.lostCount id = c) →
      (∀ id ∈ ids, (s.lastPositions id).isSome = true) →
      ((ids.foldl (LEDTracker.processOne []) (tr, cnt, s)).2.1
          = cnt + (if c + 1 ≤ s.maxLostFrames then ids.length else 0))
      ∧ (ids.foldl (LEDTracker.processOne []) (tr, cnt, s)).2.2.featureIds = s.featureIds
      ∧ (ids.foldl (LEDTracker.processOne []) (tr, cnt, s)).2.2.maxLostFrames = s.maxLostFrames
      ∧ (ids.foldl (LEDTracker.processOne []) (tr, cnt, s)).2.2.minTrackingFeatures
          = s.minTrackingFeatures
      ∧ (ids.foldl (LEDTracker.processOne []) (tr, cnt, s)).2.2.consecutiveLost = s.consecutiveLost
      ∧ (ids.foldl (LEDTracker.processOne []) (tr, cnt, s)).2.2.isTracking = s.isTracking
      ∧ (ids.foldl (LEDTracker.processOne []) (tr, cnt, s)).2.2.lastPositions = s.lastPositions
      ∧ (∀ id, (ids.foldl (LEDTracker.processOne []) (tr, cnt, s)).2.2.lostCount id
          = if id ∈ ids then c + 1 else s.lostCount id) := by
  induction ids with
  | nil => intro tr cnt s c _ _ _; simp
  | cons id₀ rest ih =>
    intro tr cnt s c hnd hlc hlp
    rw [List.nodup_cons] at hnd
    obtain ⟨hnotin, hndr⟩ := hnd
    have hlc0 : s.lostCount id₀ = c := hlc id₀ (by simp)
    have hlp0 : (s.lastPositions id₀).isSome = true := hlp id₀ (by simp)
    have hstep : LEDTracker.processOne [] (tr, cnt, s) id₀
        = if c + 1 ≤ s.maxLostFrames
          then (tr ++ [⟨id₀, (s.filters id₀).1.predict, (s.filters id₀).2.predict, false, true⟩],
                cnt + 1, { s with lostCount := fupd s.lostCount id₀ (c + 1) })
          else (tr, cnt, { s with lostCount := fupd s.lostCount id₀ (c + 1) }) := by
      unfold LEDTracker.processOne
      simp only [List.find?_nil, hlc0, hlp0, and_true]
    have hlcr : ∀ id ∈ rest,
        (fupd s.lostCount id₀ (c + 1)) id = c := by
      intro id hid
      have hne : id ≠ id₀ := fun he => hnotin (he ▸ hid)
      simp only [fupd, if_neg hne]
      exact hlc id (by simp [hid])
    have hlpr : ∀ id ∈ rest, (s.lastPositions id).isSome = true :=
      fun id hid => hlp id (by simp [hid])
    simp only [List.foldl_cons, hstep]
    by_cases hcase : c + 1 ≤ s.maxLostFrames
    · rw [if_pos hcase]
      obtain ⟨h1, h2, h3, h4, h5, h6, h7, h8⟩ :=
        ih (tr ++ [⟨id₀, (s.filters id₀).1.predict, (s.filters id₀).2.predict, false, true⟩])
          (cnt + 1) { s with lostCount := fupd s.lostCount id₀ (c + 1) } c hndr hlcr hlpr
      refine ⟨?_, h2, h3, h4, h5, h6, h7, ?_⟩
      · rw [h1]
        simp only [if_pos hcase, List.length_cons]
        omega
      · intro id
        rw [h8 id]
        by_cases hid : id ∈ rest
        · simp [hid]
        · by_cases hid0 : id = id₀
          · simp [hid, hid0, fupd]
          · simp [hid, hid0, fupd]
    · rw [if_neg hcase]
      obtain ⟨h1, h2, h3, h4, h5, h6, h7, h8⟩ :=
        ih tr cnt { s with lostCount := fupd s.lostCount id₀ (c + 1) } c hndr hlcr hlpr
      refine ⟨?_, h2, h3, h4, h5, h6, h7, ?_⟩
      · rw [h1]
        simp only [if_neg hcase]
      · intro id
        rw [h8 id]
        by_cases hid : id ∈ rest
        · simp [hid]
        · by_cases hid0 : id = id₀
          · simp [hid, hid0, fupd]
          · simp [hid, hid0, fupd]

lemma iter_inv (st : LEDTracker)
    (hnd : st.featureIds.Nodup)
    (hmin1 : 1 ≤ st.minTrackingFeatures)
    (hminN : st.minTrackingFeatures ≤ st.featureIds.length)
    (hlc : ∀ id ∈ st.featureIds, st.lostCount id = 0)
    (hlp : ∀ id ∈ st.featureIds, (st.lastPositions id).isSome = true)
    (hcl : st.consecutiveLost = 0)
    (hit : st.isTracking = true) :
    ∀ k : ℕ,
      (iterEmpty k st).featureIds = st.featureIds
      ∧ (iterEmpty k st).maxLostFrames = st.maxLostFrames
      ∧ (iterEmpty k st).minTrackingFeatures = st.minTrackingFeatures
      ∧ (∀ id ∈ st.featureIds, (iterEmpty k st).lostCount id = k)
      ∧ (iterEmpty k st).lastPositions = st.lastPositions
      ∧ (iterEmpty k st).consecutiveLost = k - min k st.maxLostFrames
      ∧ (iterEmpty k st).isTracking = decide (k ≤ 2 * st.maxLostFrames) := by
  intro k
  induction k with
  | zero =>
    exact ⟨rfl, rfl, rfl, hlc, rfl, by simp [iterEmpty, hcl], by simp [iterEmpty, hit]⟩
  | succ k ihk =>
    obtain ⟨hfi, hml, hmt, hlck, hlpk, hclk, hitk⟩ := ihk
    have hlpk' : ∀ id ∈ st.featureIds,
        ((iterEmpty k st).lastPositions id).isSome = true := by
      intro id hid; rw [hlpk]; exact hlp id hid
    obtain ⟨f1, f2, f3, f4, f5, f6, f7, f8⟩ :=
      fold_empty (iterEmpty k st).featureIds [] 0 (iterEmpty k st) k
        (hfi ▸ hnd) (fun id hid => hlck id (hfi ▸ hid)) (fun id hid => hlpk' id (hfi ▸ hid))
    have hiter : iterEmpty (k + 1) st = ((iterEmpty k st).update []).2 := rfl
    rw [hiter]
    simp only [LEDTracker.update]
    rw [hml] at f1
    by_cases hcase : k + 1 ≤ st.maxLostFrames
    · -- predicted positions keep the full feature count
      have hcnt : ((iterEmpty k st).featureIds.foldl (LEDTracker.processOne []) ([], 0, iterEmpty k st)).2.1
          = st.featureIds.length := by
        rw [f1, if_pos hcase, hfi]; omega
      have hbranch :
          ((iterEmpty k st).featureIds.foldl (LEDTracker.processOne []) ([], 0, iterEmpty k st)).2.2.minTrackingFeatures
            ≤ ((iterEmpty k st).featureIds.foldl (LEDTracker.processOne []) ([], 0, iterEmpty k st)).2.1 := by
        rw [hcnt, f4, hmt]; exact hminN
      rw [if_pos hbranch]
      refine ⟨by simpa [f2] using hfi, by simpa [f3] using hml, by simpa [f4] using hmt,
        ?_, by simpa [f7] using hlpk, ?_, ?_⟩
      · intro id hid
        simp [f8 id, hfi ▸ hid]
      · show (0 : ℕ) = (k + 1) - min (k + 1) st.maxLostFrames
        omega
      · show true = decide (k + 1 ≤ 2 * st.maxLostFrames)
        have : k + 1 ≤ 2 * st.maxLostFrames := by omega
        simp [this]
    · -- no predictions survive: the counter starts rising
      have hcnt : ((iterEmpty k st).featureIds.foldl (LEDTracker.processOne []) ([], 0, iterEmpty k st)).2.1 = 0 := by
        rw [f1, if_neg hcase]
      have hbranch :
          ¬ ((iterEmpty k st).featureIds.foldl (LEDTracker.processOne []) ([], 0, iterEmpty k st)).2.2.minTrackingFeatures
            ≤ ((iterEmpty k st).featureIds.foldl (LEDTracker.processOne []) ([], 0, iterEmpty k st)).2.1 := by
        rw [hcnt, f4, hmt]; omega
      rw [if_neg hbranch]
      refine ⟨by simpa [f2] using hfi, by simpa [f3] using hml, by simpa [f4] using hmt,
        ?_, by simpa [f7] using hlpk, ?_, ?_⟩
      · intro id hid
        simp [f8 id, hfi ▸ hid]
      · show ((iterEmpty k st).featureIds.foldl (LEDTracker.processOne [])
            ([], 0, iterEmpty k st)).2.2.consecutiveLost + 1
          = (k + 1) - min (k + 1) st.maxLostFrames
        rw [f5, hclk]
        omega
      · show (if ((iterEmpty k st).featureIds.foldl (LEDTracker.processOne [])
              ([], 0, iterEmpty k st)).2.2.maxLostFrames
            < ((iterEmpty k st).featureIds.foldl (LEDTracker.processOne [])
              ([], 0, iterEmpty k st)).2.2.consecutiveLost + 1
            then false
            else ((iterEmpty k st).featureIds.foldl (LEDTracker.processOne [])
              ([], 0, iterEmpty k st)).2.2.isTracking)
          = decide (k + 1 ≤ 2 * st.maxLostFrames)
        rw [f3, f5, f6, hml, hclk, hitk]
        by_cases h2M : k + 1 ≤ 2 * st.maxLostFrames
        · have hnotlt : ¬ st.maxLostFrames < k - min k st.maxLostFrames + 1 := by omega
          rw [if_neg hnotlt]
          simp only [decide_eq_decide]
          omega
        · have hlt : st.maxLostFrames < k - min k st.maxLostFrames + 1 := by omega
          rw [if_pos hlt]
          simp [h2M]

/-- C1 (amended): starting from a fully-tracked state (every recognized
feature has a last known position and zero lost-count, at least
`minTrackingFeatures ≥ 1` recognized features), under consecutive
zero-detection frames `isTracking` stays true through frame
`2·maxLostFrames` and becomes false at exactly frame
`2·maxLostFrames + 1`: the predicted positions emitted during the first
`maxLostFrames` frames keep `trackedCount` at full strength, so
`consecutiveLost` only starts counting afterwards. -/
theorem c1_tracker_loss_schedule (st : LEDTracker)
    (hnd : st.featureIds.Nodup)
    (hmin1 : 1 ≤ st.minTrackingFeatures)
    (hminN : st.minTrackingFeatures ≤ st.featureIds.length)
    (hlc : ∀ id ∈ st.featureIds, st.lostCount id = 0)
    (hlp : ∀ id ∈ st.featureIds, (st.lastPositions id).isSome = true)
    (hcl : st.consecutiveLost = 0)
    (hit : st.isTracking = true) :
    (∀ k, k ≤ 2 * st.maxLostFrames → (iterEmpty k st).isTracking = true)
    ∧ (∀ k, 2 * st.maxLostFrames < k → (iterEmpty k st).isTracking = false) := by
  have h := iter_inv st hnd hmin1 hminN hlc hlp hcl hit
  constructor
  · intro k hk
    rw [(h k).2.2.2.2.2.2]
    simp [hk]
  · intro k hk
    rw [(h k).2.2.2.2.2.2]
    simp
    omega

/-- C1 witness: the loss schedule instantiated at a concrete tracker
with `maxLostFrames = 3` and four recognized features. -/
theorem c1_tracker_loss_witness :
    (demoTracker.featureIds.Nodup
      ∧ 1 ≤ demoTracker.minTrackingFeatures
      ∧ demoTracker.minTrackingFeatures ≤ demoTracker.featureIds.length
      ∧ (∀ id ∈ demoTracker.featureIds, demoTracker.lostCount id = 0)
      ∧ (∀ id ∈ demoTracker.featureIds, (demoTracker.lastPositions id).isSome = true)
      ∧ demoTracker.consecutiveLost = 0
      ∧ demoTracker.isTracking = true)
    ∧ ((∀ k, k ≤ 2 * demoTracker.maxLostFrames → (iterEmpty k demoTracker).isTracking = true)
      ∧ (∀ k, 2 * demoTracker.maxLostFrames < k → (iterEmpty k demoTracker).isTracking = false)) :=
  ⟨⟨by decide, by decide, by decide, by decide, by decide, rfl, rfl⟩,
    c1_tracker_loss_schedule demoTracker (by decide) (by decide) (by decide)
      (by decide) (by decide) rfl rfl⟩

/-- C1 counterexample: on the concrete fully-tracked tracker with
`maxLostFrames = 3`, after `maxLostFrames + 1 = 4` zero-detection frames
`isTracking` is still true, contradicting the claim that it becomes
false at exactly frame `maxLostFrames + 1`. -/
theorem c1_counterexample :
    demoTracker.maxLostFrames = 3
      ∧ (iterEmpty (3 + 1) demoTracker).isTracking = true :=
  ⟨rfl, by decide⟩

-- ===================================================================
-- Shared geometry types and helpers
-- ===================================================================

/-- A 2D point (normalized image coordinates). -/
structure Pt2 where
  x : ℚ
  y : ℚ

instance : Inhabited Pt2 := ⟨⟨0, 0⟩⟩

/-- A 3D model point (millimeters). -/
structure Pt3 where
  x : ℚ
  y : ℚ
  z : ℚ

instance : Inhabited Pt3 := ⟨⟨0, 0, 0⟩⟩

/-- Stable insertion of `a` into `l` before the first element `b` with
`le a b`. -/
def insertBy {α : Type} (le : α → α → Bool) (a : α) : List α → List α
  | [] => [a]
  | b :: bs => if le a b then a :: b :: bs else b :: insertBy le a bs

/-- Stable insertion sort, modelling the (stable) JS `Array#sort`. -/
def sortBy {α : Type} (le : α → α → Bool) (l : List α) : List α :=
  l.foldr (insertBy le) []

/-- `Math` primitives for witnesses: `sqrt` is tabulated exactly on the
perfect squares that arise in the concrete witness inputs
(`872² = 760384`, `1346² = 1811716`, `237² = 56169`) and is otherwise
zero; the trigonometric entries are trivial. -/
def demoMath : JsMath :=
  { sqrt := fun q => if q = 760384 then 872 else if q = 1811716 then 1346
      else if q = 56169 then 237 else 0
    cos := fun _ => 0, sin := fun _ => 0
    acos := fun _ => 0, atan2 := fun _ _ => 0, pi := 0 }

-- ===================================================================
-- Rigid 5-LED geometry matcher
-- (src/geometry-matcher.js, second `GeometryMatcher` class)
-- ===================================================================

namespace Rigid

/-- A point labelled with a LED id (1..5). -/
structure PtId where
  x : ℚ
  y : ℚ
  id : ℕ

instance : Inhabited PtId := ⟨⟨0, 0, 0⟩⟩

/-- Tolerance preset of the rigid matcher (`_updateTolerances`). -/
structure Tols where
  aspectRatioTol : ℚ
  centerTol : ℚ
  regularityTol : ℚ
  maxCombinations : ℕ

/-- The `medium` sensitivity preset. -/
def presetMedium : Tols := ⟨2/5, 2/5, 7/20, 500⟩

/-- The `low` sensitivity preset. -/
def presetLow : Tols := ⟨1/4, 3/10, 1/5, 200⟩

/-- The `high` sensitivity preset. -/
def presetHigh : Tols := ⟨3/5, 1/2, 1/2, 1000⟩

/-- `LED_GEOMETRY.expectedAspectRatio = 67.3 / 43.6`. -/
def expectedAspectRatio : ℚ := (673/10) / (436/10)

/-- Index of the topmost point (smallest `y`; JS keeps the first index
on ties, scanning `i = 1..4` with a strict comparison — folding from
`i = 0` is identical since `points[0].y < points[0].y` is false). -/
def topIdx (pts : List Pt2) : ℕ :=
  (List.range pts.length).foldl
    (fun best i => if (pts.getD i default).y < (pts.getD best default).y then i else best) 0

/-- The topmost point — the LED5 candidate. -/
def led5 (pts : List Pt2) : Pt2 := pts.getD (topIdx pts) default

/-- The remaining four points (`points.filter((_, i) => i !== topIdx)`). -/
def bottomPts (pts : List Pt2) : List Pt2 :=
  (pts.enum.filter (fun ip => ip.1 ≠ topIdx pts)).map (fun ip => ip.2)

/-- `x` coordinate of the centroid of the bottom four points. -/
def centroidX (pts : List Pt2) : ℚ := ((bottomPts pts).foldl (fun s p => s + p.x) 0) / 4

/-- `y` coordinate of the centroid of the bottom four points. -/
def centroidY (pts : List Pt2) : ℚ := ((bottomPts pts).foldl (fun s p => s + p.y) 0) / 4

/-- Quadrant id assignment relative to the centroid (JS `_verifyGeometry`
step 4). -/
def quadId (dx dy : ℚ) : ℕ :=
  if dx > 0 ∧ dy < 0 then 1
  else if dx > 0 ∧ dy ≥ 0 then 2
  else if dx ≤ 0 ∧ dy ≥ 0 then 3
  else 4

/-- The quadrant ids assigned to the bottom four points, in order. -/
def assignedIds (pts : List Pt2) : List ℕ :=
  (bottomPts pts).map (fun p => quadId (p.x - centroidX pts) (p.y - centroidY pts))

/-- The `metrics` record returned by `_verifyGeometry`. -/
structure Metrics where
  aspectRatio : ℚ
  ratioError : ℚ
  horizontalOffset : ℚ
  sideCV : ℚ
  width : ℚ
  height : ℚ
  rectCenterX : ℚ
  rectCenterY : ℚ

/-- A scored result of `_verifyGeometry`. -/
structure Result where
  points : List PtId
  score : ℚ
  metrics : Metrics

/-- Rectangle-shaped checks and scoring of `_verifyGeometry` (step 5
onward), applied to the id-ordered points `p1..p5`. -/
def verifyRect (m : JsMath) (tols : Tols) (ordered : List PtId) (cy : ℚ) : Option Result :=
  let p1 := ordered.getD 0 default
  let p2 := ordered.getD 1 default
  let p3 := ordered.getD 2 default
  let p4 := ordered.getD 3 default
  let p5 := ordered.getD 4 default
  let width := |p1.x - p3.x|
  let height := |p1.y - p2.y|
  if width < 1/1000 ∨ height < 1/1000 then none
  else
    let aspectRatio := width / height
    let ratioError := |aspectRatio - expectedAspectRatio| / expectedAspectRatio
    if ratioError > tols.aspectRatioTol then none
    else
      let avgX := (p1.x + p2.x + p3.x + p4.x) / 4
      let hoff := |p5.x - avgX|
      if hoff > width * tols.centerTol then none
      else
        let d12 := m.hypot (p1.x - p2.x) (p1.y - p2.y)
        let d23 := m.hypot (p2.x - p3.x) (p2.y - p3.y)
        let d34 := m.hypot (p3.x - p4.x) (p3.y - p4.y)
        let d41 := m.hypot (p4.x - p1.x) (p4.y - p1.y)
        let avgSide := (d12 + d23 + d34 + d41) / 4
        if avgSide < 1/1000 then none
        else
          let sideVariance :=
            ((d12 - avgSide) ^ 2 + (d23 - avgSide) ^ 2
              + (d34 - avgSide) ^ 2 + (d41 - avgSide) ^ 2) / 4
          let sideCV := m.sqrt sideVariance / avgSide
          if sideCV > tols.regularityTol then none
          else
            some
              { points := ordered
                score := ratioError * 2 + (hoff / width) * (3/2) + sideCV * (3/2)
                metrics :=
                  { aspectRatio := aspectRatio, ratioError := ratioError
                    horizontalOffset := hoff / width, sideCV := sideCV
                    width := width, height := height
                    rectCenterX := avgX, rectCenterY := cy } }

/-- JS `GeometryMatcher._verifyGeometry(points)` (the rigid 5-LED
variant).  The duplicate-id check `new Set(ids).size !== 4` is modelled
by `(assignedIds pts).dedup.length ≠ 4`, which computes the same ids as
the `assigned` array. -/
def verifyGeometry (m : JsMath) (tols : Tols) (pts : List Pt2) : Option Result :=
  let led5p := led5 pts
  let cx := centroidX pts
  let cy := centroidY pts
  if led5p.y ≥ cy then none
  else if (assignedIds pts).dedup.length ≠ 4 then none
  else
    let assigned : List PtId :=
      (bottomPts pts).map (fun p => ⟨p.x, p.y, quadId (p.x - cx) (p.y - cy)⟩)
    let ordered := sortBy (fun a b => a.id ≤ b.id) (assigned ++ [⟨led5p.x, led5p.y, 5⟩])
    verifyRect m tols ordered cy

lemma verifyRect_score (m : JsMath) (tols : Tols) (ordered : List PtId) (cy : ℚ)
    (r : Result) (h : verifyRect m tols ordered cy = some r) :
    r.score = 2 * r.metrics.ratioError + (3/2) * r.metrics.horizontalOffset
      + (3/2) * r.metrics.sideCV := by
  simp only [verifyRect] at h
  split_ifs at h
  cases h
  simp only []
  ring

/-- All ordered index-ascending pairs of a list. -/
def combos2 {α : Type} : List α → List (α × α)
  | [] => []
  | x :: xs => xs.map (fun y => (x, y)) ++ combos2 xs

/-- All ordered index-ascending triples of a list. -/
def combos3 {α : Type} : List α → List (α × α × α)
  | [] => []
  | x :: xs => (combos2 xs).map (fun t => (x, t)) ++ combos3 xs

/-- All ordered index-ascending 4-tuples of a list. -/
def combos4 {α : Type} : List α → List (α × α × α × α)
  | [] => []
  | x :: xs => (combos3 xs).map (fun t => (x, t)) ++ combos4 xs

/-- All ordered index-ascending 5-tuples of a list, in the lexicographic
order of the JS nested loops of `_searchCombinations`. -/
def combos5 {α : Type} : List α → List (α × α × α × α × α)
  | [] => []
  | x :: xs => (combos4 xs).map (fun t => (x, t)) ++ combos5 xs

/-- A 5-tuple as a point list. -/
def tupToList {α : Type} (t : α × α × α × α × α) : List α :=
  [t.1, t.2.1, t.2.2.1, t.2.2.2.1, t.2.2.2.2]

/-- One step of the best-result fold of `_searchCombinations`
(`result.score < bestScore` with `bestScore` starting at `Infinity`). -/
def bestStep (m : JsMath) (tols : Tols) (best : Option Result)
    (t : Pt2 × Pt2 × Pt2 × Pt2 × Pt2) : Option Result :=
  match verifyGeometry m tols (tupToList t) with
  | none => best
  | some r =>
    match best with
    | none => some r
    | some b => if r.score < b.score then some r else some b

/-- JS `GeometryMatcher._searchCombinations(points)`: tests the first
`maxCombinations` 5-point combinations in the nested-loop order (the
innermost counter guards every loop level, so exactly the first
`maxCombinations` lexicographic tuples are tested) and keeps the
lowest-scoring valid one. -/
def searchCombinations (m : JsMath) (tols : Tols) (pts : List Pt2) : Option Result :=
  ((combos5 pts).take tols.maxCombinations).foldl (bestStep m tols) none

lemma bestFold_min (m : JsMath) (tols : Tols) :
    ∀ (ts : List (Pt2 × Pt2 × Pt2 × Pt2 × Pt2)) (best : Option Result) (b : Result),
      ts.foldl (bestStep m tols) best = some b →
      (∀ t ∈ ts, ∀ r, verifyGeometry m tols (tupToList t) = some r → b.score ≤ r.score)
      ∧ (∀ b0, best = some b0 → b.score ≤ b0.score) := by
  intro ts
  induction ts with
  | nil =>
    intro best b h
    simp only [List.foldl_nil] at h
    exact ⟨by simp, fun b0 hb0 => by rw [hb0] at h; cases h; exact le_refl _⟩
  | cons t ts ih =>
    intro best b h
    simp only [List.foldl_cons] at h
    obtain ⟨ih1, ih2⟩ := ih (bestStep m tols best t) b h
    constructor
    · intro t' ht' r hr
      rcases List.mem_cons.mp ht' with rfl | ht'
      · have hstep : ∃ b1, bestStep m tols best t' = some b1 ∧ b1.score ≤ r.score := by
          unfold bestStep
          rw [hr]
          cases best with
          | none => exact ⟨r, rfl, le_refl _⟩
          | some b0 =>
            by_cases hlt : r.score < b0.score
            · exact ⟨r, by simp [hlt], le_refl _⟩
            · exact ⟨b0, by simp [hlt], le_of_not_lt hlt⟩
        obtain ⟨b1, hb1, hle⟩ := hstep
        exact le_trans (ih2 b1 hb1) hle
      · exact ih1 t' ht' r hr
    · intro b0 hb0
      subst hb0
      have hstep : ∃ b1, bestStep m tols (some b0) t = some b1 ∧ b1.score ≤ b0.score := by
        unfold bestStep
        cases hv : verifyGeometry m tols (tupToList t) with
        | none => exact ⟨b0, by simp, le_refl _⟩
        | some r =>
          by_cases hlt : r.score < b0.score
          · exact ⟨r, by simp [hlt], le_of_lt hlt⟩
          · exact ⟨b0, by simp [hlt], le_refl _⟩
      obtain ⟨b1, hb1, hle⟩ := hstep
      exact le_trans (ih2 b1 hb1) hle

end Rigid

/-- C2: in the rigid 5-LED matcher, (i) a subset whose topmost point is
not strictly above the centroid of the other four is rejected; (ii) so
is a subset whose quadrant-id assignment has a duplicate id; (iii) a
subset passing all checks is scored
`2·ratioError + 1.5·(horizontalOffset/width) + 1.5·sideCV`; and (iv)
whenever the combination budget covers all 5-point subsets, the returned
match scores no higher than any valid subset. -/
theorem c2_rigid_geometry (m : JsMath) (tols : Rigid.Tols) :
    (∀ pts : List Pt2, (Rigid.led5 pts).y ≥ Rigid.centroidY pts →
      Rigid.verifyGeometry m tols pts = none)
    ∧ (∀ pts : List Pt2, (Rigid.assignedIds pts).dedup.length ≠ 4 →
      Rigid.verifyGeometry m tols pts = none)
    ∧ (∀ (pts : List Pt2) (r : Rigid.Result), Rigid.verifyGeometry m tols pts = some r →
      r.score = 2 * r.metrics.ratioError + (3/2) * r.metrics.horizontalOffset
        + (3/2) * r.metrics.sideCV)
    ∧ (∀ (pts : List Pt2) (best : Rigid.Result),
      Rigid.searchCombinations m tols pts = some best →
      (Rigid.combos5 pts).length ≤ tols.maxCombinations →
      ∀ t ∈ Rigid.combos5 pts, ∀ r, Rigid.verifyGeometry m tols (Rigid.tupToList t) = some r →
        best.score ≤ r.score) := by
  refine ⟨?_, ?_, ?_, ?_⟩
  · intro pts h
    simp only [Rigid.verifyGeometry]
    rw [if_pos h]
  · intro pts h
    simp only [Rigid.verifyGeometry]
    by_cases h1 : (Rigid.led5 pts).y ≥ Rigid.centroidY pts
    · rw [if_pos h1]
    · rw [if_neg h1, if_pos h]
  · intro pts r h
    simp only [Rigid.verifyGeometry] at h
    split_ifs at h
    exact Rigid.verifyRect_score _ _ _ _ r h
  · intro pts best hs hlen t ht r hr
    unfold Rigid.searchCombinations at hs
    rw [List.take_of_length_le hlen] at hs
    exact (Rigid.bestFold_min m tols (Rigid.combos5 pts) none best hs).1 t ht r hr

/-- Five collinear points: the topmost point ties the centroid height. -/
def ptsFlat : List Pt2 := [⟨0, 0⟩, ⟨1, 0⟩, ⟨2, 0⟩, ⟨3, 0⟩, ⟨4, 0⟩]

/-- Five points whose bottom four produce a duplicate quadrant id. -/
def ptsDup : List Pt2 := [⟨0, -10⟩, ⟨1, 1⟩, ⟨2, 2⟩, ⟨-1, 1⟩, ⟨-2, -3⟩]

/-- An exact rectangle of the modelled aspect ratio `673/436` with the
protruding point straight above its center: all squared side lengths and
the side variance are perfect squares covered by `demoMath.sqrt`. -/
def ptsRect : List Pt2 := [⟨673, -436⟩, ⟨673, 436⟩, ⟨-673, 436⟩, ⟨-673, -436⟩, ⟨0, -1000⟩]

lemma ptsFlat_cond : (Rigid.led5 ptsFlat).y ≥ Rigid.centroidY ptsFlat := by
  norm_num [Rigid.led5, Rigid.topIdx, Rigid.centroidY, Rigid.bottomPts, ptsFlat,
    List.range, List.range.loop, List.enum, List.enumFrom]

lemma ptsDup_cond : (Rigid.assignedIds ptsDup).dedup.length ≠ 4 := by
  have h : Rigid.assignedIds ptsDup = [2, 2, 3, 4] := by
    norm_num [Rigid.assignedIds, Rigid.bottomPts, Rigid.centroidX, Rigid.centroidY,
      Rigid.topIdx, Rigid.quadId, ptsDup, List.range, List.range.loop, List.enum,
      List.enumFrom]
  rw [h]; decide

set_option maxHeartbeats 4000000 in
lemma ptsRect_verify_isSome :
    (Rigid.verifyGeometry demoMath Rigid.presetMedium ptsRect).isSome = true := by
  norm_num [Rigid.verifyGeometry, Rigid.verifyRect, Rigid.led5, Rigid.topIdx,
    Rigid.centroidX, Rigid.centroidY, Rigid.bottomPts, Rigid.assignedIds, Rigid.quadId,
    Rigid.expectedAspectRatio, Rigid.presetMedium, sortBy, insertBy, JsMath.hypot,
    demoMath, ptsRect, List.range, List.range.loop, List.enum, List.enumFrom,
    List.dedup_cons_of_mem, List.dedup_cons_of_not_mem]

lemma ptsRect_search_isSome :
    (Rigid.searchCombinations demoMath Rigid.presetMedium ptsRect).isSome = true := by
  obtain ⟨r, hr⟩ := Option.isSome_iff_exists.mp ptsRect_verify_isSome
  have hsearch : Rigid.searchCombinations demoMath Rigid.presetMedium ptsRect
      = Rigid.bestStep demoMath Rigid.presetMedium none
          (⟨673, -436⟩, ⟨673, 436⟩, ⟨-673, 436⟩, ⟨-673, -436⟩, ⟨0, -1000⟩) := rfl
  have ht : Rigid.tupToList
      ((⟨673, -436⟩, ⟨673, 436⟩, ⟨-673, 436⟩, ⟨-673, -436⟩, ⟨0, -1000⟩) :
        Pt2 × Pt2 × Pt2 × Pt2 × Pt2) = ptsRect := rfl
  rw [hsearch]
  unfold Rigid.bestStep
  rw [ht, hr]
  simp

lemma ptsRect_combos_len :
    (Rigid.combos5 ptsRect).length ≤ Rigid.presetMedium.maxCombinations := by
  norm_num [Rigid.combos5, Rigid.combos4, Rigid.combos3, Rigid.combos2, ptsRect,
    Rigid.presetMedium]

/-- C2 witness: the four parts of `c2_rigid_geometry` instantiated at
concrete point sets (a flat set, a duplicate-quadrant set, and an exact
rectangle) under the medium preset with exact square roots. -/
theorem c2_rigid_geometry_witness :
    ((Rigid.led5 ptsFlat).y ≥ Rigid.centroidY ptsFlat
      ∧ Rigid.verifyGeometry demoMath Rigid.presetMedium ptsFlat = none)
    ∧ ((Rigid.assignedIds ptsDup).dedup.length ≠ 4
      ∧ Rigid.verifyGeometry demoMath Rigid.presetMedium ptsDup = none)
    ∧ (∃ r, Rigid.verifyGeometry demoMath Rigid.presetMedium ptsRect = some r
      ∧ r.score = 2 * r.metrics.ratioError + (3/2) * r.metrics.horizontalOffset
          + (3/2) * r.metrics.sideCV)
    ∧ (∃ best, Rigid.searchCombinations demoMath Rigid.presetMedium ptsRect = some best
      ∧ ∀ t ∈ Rigid.combos5 ptsRect, ∀ r,
          Rigid.verifyGeometry demoMath Rigid.presetMedium (Rigid.tupToList t) = some r →
            best.score ≤ r.score) := by
  refine ⟨⟨ptsFlat_cond, (c2_rigid_geometry demoMath Rigid.presetMedium).1 ptsFlat ptsFlat_cond⟩,
    ⟨ptsDup_cond, (c2_rigid_geometry demoMath Rigid.presetMedium).2.1 ptsDup ptsDup_cond⟩, ?_, ?_⟩
  · obtain ⟨r, hr⟩ := Option.isSome_iff_exists.mp ptsRect_verify_isSome
    exact ⟨r, hr, (c2_rigid_geometry demoMath Rigid.presetMedium).2.2.1 ptsRect r hr⟩
  · obtain ⟨best, hbest⟩ := Option.isSome_iff_exists.mp ptsRect_search_isSome
    exact ⟨best, hbest,
      (c2_rigid_geometry demoMath Rigid.presetMedium).2.2.2 ptsRect best hbest
        ptsRect_combos_len⟩

-- ===================================================================
-- Strip-aware geometry matcher
-- (src/geometry-matcher.js, first `GeometryMatcher` class)
-- ===================================================================

namespace Strip

/-- Sensitivity tolerances of the strip-aware matcher. -/
structure Sens where
  stripSpacingTolerance : ℚ
  ledStripAlignTolerance : ℚ
  ledLeftRightThreshold : ℚ
  minFeaturesForPnP : ℕ
  minSpatialSpread : ℚ

/-- Constructor defaults (the `normal` level). -/
def defaultSens : Sens :=
  { stripSpacingTolerance := 2/5, ledStripAlignTolerance := 3/20
    ledLeftRightThreshold := 1/20, minFeaturesForPnP := 4, minSpatialSpread := 3/10 }

/-- JS `setSensitivity(level)`: only the three listed tolerances change;
`ledLeftRightThreshold` and `minFeaturesForPnP` are never touched. -/
def setSensitivity (level : String) (s : Sens) : Sens :=
  if level = "strict" then
    { s with stripSpacingTolerance := 1/4, ledStripAlignTolerance := 1/10
             minSpatialSpread := 2/5 }
  else if level = "relaxed" then
    { s with stripSpacingTolerance := 1/2, ledStripAlignTolerance := 1/5
             minSpatialSpread := 1/5 }
  else
    { s with stripSpacingTolerance := 2/5, ledStripAlignTolerance := 3/20
             minSpatialSpread := 3/10 }

/-- `DEVICE_GEOMETRY.leds`. -/
def deviceLeds : List (String × Pt3) :=
  [("LED1", ⟨62, 433/10, 0⟩), ("LED2", ⟨62, -433/10, 0⟩),
   ("LED3", ⟨-62, -433/10, 0⟩), ("LED4", ⟨-62, 433/10, 0⟩),
   ("LED5", ⟨0, 1516/10, 40⟩)]

/-- `DEVICE_GEOMETRY.stripEdges`. -/
def deviceStripEdges : List (String × Pt3) :=
  [("ST_L", ⟨-48, 433/10, 0⟩), ("ST_R", ⟨48, 433/10, 0⟩),
   ("SM_L", ⟨-48, 0, 0⟩), ("SM_R", ⟨48, 0, 0⟩),
   ("SB_L", ⟨-48, -433/10, 0⟩), ("SB_R", ⟨48, -433/10, 0⟩)]

/-- The JS edge-feature-id string `` `S${stripId.substring(6)[0]}_${L|R}` ``. -/
def edgeFeatureId (stripId : String) (left : Bool) : String :=
  "S" ++ ((stripId.drop 6).take 1) ++ (if left then "_L" else "_R")

/-- JS `_getEdgePoint3D`: looks the edge id up in the device geometry,
falling back to the origin when absent. -/
def getEdgePoint3D (stripId : String) (left : Bool) : Pt3 :=
  match deviceStripEdges.find? (fun e => e.1 == edgeFeatureId stripId left) with
  | some e => e.2
  | none => ⟨0, 0, 0⟩

/-- JS `_getLED3D`. -/
def getLED3D (ledId : String) : Pt3 :=
  match deviceLeds.find? (fun e => e.1 == ledId) with
  | some e => e.2
  | none => ⟨0, 0, 0⟩

/-- An edge midpoint of a detected strip blob (normalized coords). -/
structure EdgePt where
  nx : ℚ
  ny : ℚ

/-- A detected strip blob. -/
structure StripBlob where
  x : ℚ
  y : ℚ
  edgeLeft : Option EdgePt
  edgeRight : Option EdgePt

/-- A strip blob with its assigned strip id. -/
structure MatchedStrip where
  x : ℚ
  y : ℚ
  edgeLeft : Option EdgePt
  edgeRight : Option EdgePt
  id : String

/-- A detected LED candidate (normalized coords). -/
structure LedCand where
  x : ℚ
  y : ℚ

instance : Inhabited LedCand := ⟨⟨0, 0⟩⟩

/-- A LED candidate with its assigned LED id. -/
structure MatchedLed where
  x : ℚ
  y : ℚ
  id : String

/-- JS `matchStrips`: sort by `y` and assign `STRIP_TOP/MID/BOT` top to
bottom (at most three).  The spacing-consistency computation only issues
a `console.warn` and never changes the result, so it is omitted. -/
def matchStrips (blobs : List StripBlob) : List MatchedStrip :=
  let sorted := sortBy (fun a b => a.y ≤ b.y) blobs
  List.zipWith (fun (s : StripBlob) id => MatchedStrip.mk s.x s.y s.edgeLeft s.edgeRight id)
    (sorted.take 3) ["STRIP_TOP", "STRIP_MID", "STRIP_BOT"]

/-- First element of a fold with JS-`reduce` semantics (first element is
the initial accumulator); `default` is only reached on `[]`, which the
callers guard against. -/
def reduceBest {α : Type} [Inhabited α] (pick : α → α → α) : List α → α
  | [] => default
  | h :: t => t.foldl pick h

/-- JS `_matchLEDsWithStripContext`. -/
def matchLEDsWithStripContext (sens : Sens) (leds : List LedCand)
    (strips : List MatchedStrip) : List MatchedLed :=
  let stripCenterX := (strips.foldl (fun s p => s + p.x) 0) / (strips.length : ℚ)
  let stripYs := sortBy (fun a b => a ≤ b) (strips.map (fun s => s.y))
  let topStripY := stripYs.getD 0 0
  let bottomStripY := stripYs.getD (stripYs.length - 1) 0
  -- the single classification pass, as order-preserving filters
  let isTop := fun (l : LedCand) => l.y < topStripY - 1/10
  let isLeft := fun (l : LedCand) => ¬ isTop l ∧ l.x < stripCenterX - sens.ledLeftRightThreshold
  let isRight := fun (l : LedCand) =>
    ¬ isTop l ∧ ¬ l.x < stripCenterX - sens.ledLeftRightThreshold
      ∧ l.x > stripCenterX + sens.ledLeftRightThreshold
  let topLEDs := leds.filter (fun l => decide (isTop l))
  let leftLEDs := leds.filter (fun l => decide (isLeft l))
  let rightLEDs := leds.filter (fun l => decide (isRight l))
  let led5Part : List MatchedLed :=
    if topLEDs.isEmpty then []
    else
      let led5 := reduceBest
        (fun best led => if |led.x - 1/2| < |best.x - 1/2| then led else best) topLEDs
      [⟨led5.x, led5.y, "LED5"⟩]
  let rightPart : List MatchedLed :=
    if 2 ≤ rightLEDs.length then
      let sorted := sortBy (fun a b => a.y ≤ b.y) rightLEDs
      [⟨(sorted.getD 0 default).x, (sorted.getD 0 default).y, "LED1"⟩,
       ⟨(sorted.getD 1 default).x, (sorted.getD 1 default).y, "LED2"⟩]
    else if rightLEDs.length = 1 then
      let led := rightLEDs.getD 0 default
      let closerToTop := |led.y - topStripY| < |led.y - bottomStripY|
      [⟨led.x, led.y, if closerToTop then "LED1" else "LED2"⟩]
    else []
  let leftPart : List MatchedLed :=
    if 2 ≤ leftLEDs.length then
      let sorted := sortBy (fun a b => b.y ≤ a.y) leftLEDs
      [⟨(sorted.getD 0 default).x, (sorted.getD 0 default).y, "LED3"⟩,
       ⟨(sorted.getD 1 default).x, (sorted.getD 1 default).y, "LED4"⟩]
    else if leftLEDs.length = 1 then
      let led := leftLEDs.getD 0 default
      let closerToTop := |led.y - topStripY| < |led.y - bottomStripY|
      [⟨led.x, led.y, if closerToTop then "LED4" else "LED3"⟩]
    else []
  led5Part ++ rightPart ++ leftPart

/-- Minimum of a list, with the head as initial accumulator
(`Math.min(...xs)`; callers guarantee nonemptiness). -/
def listMin (l : List ℚ) : ℚ :=
  match l with
  | [] => 0
  | h :: t => t.foldl min h

/-- Maximum of a list, with the head as initial accumulator. -/
def listMax (l : List ℚ) : ℚ :=
  match l with
  | [] => 0
  | h :: t => t.foldl max h

/-- Index of the first minimum of a distance list (JS loop with
`bestDist = Infinity` and strict improvement). -/
def argminIdx (ds : List ℚ) : ℕ :=
  (List.range ds.length).foldl
    (fun best i => if ds.getD i 0 < ds.getD best 0 then i else best) 0

/-- The corner-assignment loop of `_matchLEDsPatternBased`: pick the
closest remaining candidate for each corner target, removing it from
the pool; an empty pool stops the loop. -/
def cornerLoop (m : JsMath) :
    List (String × ℚ × ℚ) → List LedCand → List MatchedLed →
      List LedCand × List MatchedLed
  | [], rem, acc => (rem, acc)
  | (id, tx, ty) :: cs, rem, acc =>
    if rem.isEmpty then (rem, acc)
    else
      let ds := rem.map (fun l => m.hypot (l.x - tx) (l.y - ty))
      let i := argminIdx ds
      let led := rem.getD i default
      cornerLoop m cs (rem.eraseIdx i) (acc ++ [⟨led.x, led.y, id⟩])

/-- JS `a < b - 0.1` where `b` may be `Infinity` (modelled as `none`). -/
def ltMinusTenth (a : ℚ) (b : Option ℚ) : Bool :=
  match b with
  | none => true
  | some c => a < c - 1/10

/-- `Math.min(x ?? Infinity, y ?? Infinity)` with `Infinity` as `none`. -/
def optMin (x y : Option ℚ) : Option ℚ :=
  match x, y with
  | none, none => none
  | some a, none => some a
  | none, some b => some b
  | some a, some b => some (min a b)

/-- JS `_matchLEDsPatternBased`. -/
def matchLEDsPatternBased (m : JsMath) (leds : List LedCand) : List MatchedLed :=
  if leds.length < 4 then []
  else
    let xs := leds.map (fun l => l.x)
    let ys := leds.map (fun l => l.y)
    let minX := listMin xs
    let maxX := listMax xs
    let minY := listMin ys
    let maxY := listMax ys
    let corners : List (String × ℚ × ℚ) :=
      [("LED1", maxX, minY), ("LED2", maxX, maxY), ("LED3", minX, maxY), ("LED4", minX, minY)]
    let looped := cornerLoop m corners leds []
    let remaining := looped.1
    let matched := looped.2
    if remaining.isEmpty then matched
    else
      let topCornerY := optMin
        ((matched.find? (fun l => l.id == "LED1")).map (fun l => l.y))
        ((matched.find? (fun l => l.id == "LED4")).map (fun l => l.y))
      let topCandidate := reduceBest (fun best led => if led.y < best.y then led else best) remaining
      if ltMinusTenth topCandidate.y topCornerY then
        matched ++ [⟨topCandidate.x, topCandidate.y, "LED5"⟩]
      else matched

/-- JS `matchLEDs`. -/
def matchLEDs (m : JsMath) (sens : Sens) (leds : List LedCand)
    (strips : List MatchedStrip) : List MatchedLed :=
  if leds.isEmpty then []
  else if 0 < strips.length then matchLEDsWithStripContext sens leds strips
  else matchLEDsPatternBased m leds

/-- JS `_calculateSpatialSpread`. -/
def spatialSpread (m : JsMath) (points2D : List Pt2) : ℚ :=
  if points2D.length < 2 then 0
  else
    let xs := points2D.map (fun p => p.x)
    let ys := points2D.map (fun p => p.y)
    m.hypot (listMax xs - listMin xs) (listMax ys - listMin ys)

/-- JS `Math.round` (half away from zero toward `+∞`). -/
def jsRound (q : ℚ) : ℤ := ⌊q + 1/2⌋

/-- JS `_calculateMatchScore`. -/
def matchScore (stripCount ledCount : ℕ) (spread : ℚ) : ℤ :=
  let stripScore := min ((stripCount : ℚ) / 3) 1 * 40
  let ledScore := min ((ledCount : ℚ) / 5) 1 * 40
  let spreadScore := min (spread / 1) 1 * 20
  jsRound (stripScore + ledScore + spreadScore)

/-- Result record of the strip-aware `match` (diagnostics omitted; they
never feed back into the pipeline). -/
structure MatchResult where
  success : Bool
  points2D : List Pt2
  points3D : List Pt3
  featureIds : List String
  ledCount : ℕ
  stripCount : ℕ
  score : ℤ

/-- Push one matched strip's present edge points onto the three parallel
correspondence arrays (JS `match`, step 2). -/
def pushEdges (s : MatchedStrip) (acc : List Pt2 × List Pt3 × List String) :
    List Pt2 × List Pt3 × List String :=
  let acc1 :=
    match s.edgeLeft with
    | some e => (acc.1 ++ [⟨e.nx, e.ny⟩], acc.2.1 ++ [getEdgePoint3D s.id true],
                 acc.2.2 ++ [edgeFeatureId s.id true])
    | none => acc
  match s.edgeRight with
  | some e => (acc1.1 ++ [⟨e.nx, e.ny⟩], acc1.2.1 ++ [getEdgePoint3D s.id false],
               acc1.2.2 ++ [edgeFeatureId s.id false])
  | none => acc1

/-- Push one matched LED onto the three parallel correspondence arrays
(JS `match`, step 4). -/
def pushLed (l : MatchedLed) (acc : List Pt2 × List Pt3 × List String) :
    List Pt2 × List Pt3 × List String :=
  (acc.1 ++ [⟨l.x, l.y⟩], acc.2.1 ++ [getLED3D l.id], acc.2.2 ++ [l.id])

/-- JS `GeometryMatcher.match(ledCandidates, stripBlobs, imageAspect)`
(the strip-aware variant; `imageAspect` is accepted but never read by
the JS body). -/
def stripMatch (m : JsMath) (sens : Sens) (leds : List LedCand)
    (strips : List StripBlob) (_imageAspect : ℚ) : MatchResult :=
  let matchedStrips := matchStrips strips
  let accS := matchedStrips.foldl (fun a s => pushEdges s a) ([], [], [])
  let matchedLEDs := matchLEDs m sens leds matchedStrips
  let accL := matchedLEDs.foldl (fun a l => pushLed l a) accS
  let totalFeatures := accL.1.length
  let spread := spatialSpread m accL.1
  { success := decide (sens.minFeaturesForPnP ≤ totalFeatures)
      && decide (sens.minSpatialSpread ≤ spread)
    points2D := accL.1
    points3D := accL.2.1
    featureIds := accL.2.2
    ledCount := matchedLEDs.length
    stripCount := matchedStrips.length
    score := matchScore matchedStrips.length matchedLEDs.length spread }

lemma pushEdges_len (s : MatchedStrip) (acc : List Pt2 × List Pt3 × List String)
    (h1 : acc.1.length = acc.2.1.length) (h2 : acc.1.length = acc.2.2.length) :
    (pushEdges s acc).1.length = (pushEdges s acc).2.1.length
      ∧ (pushEdges s acc).1.length = (pushEdges s acc).2.2.length := by
  unfold pushEdges
  cases s.edgeLeft <;> cases s.edgeRight <;> simp <;> omega

lemma pushLed_len (l : MatchedLed) (acc : List Pt2 × List Pt3 × List String)
    (h1 : acc.1.length = acc.2.1.length) (h2 : acc.1.length = acc.2.2.length) :
    (pushLed l acc).1.length = (pushLed l acc).2.1.length
      ∧ (pushLed l acc).1.length = (pushLed l acc).2.2.length := by
  unfold pushLed
  simp
  omega

lemma foldEdges_len (ss : List MatchedStrip) :
    ∀ acc : List Pt2 × List Pt3 × List String,
      acc.1.length = acc.2.1.length → acc.1.length = acc.2.2.length →
      (ss.foldl (fun a s => pushEdges s a) acc).1.length
          = (ss.foldl (fun a s => pushEdges s a) acc).2.1.length
        ∧ (ss.foldl (fun a s => pushEdges s a) acc).1.length
          = (ss.foldl (fun a s => pushEdges s a) acc).2.2.length := by
  induction ss with
  | nil => intro acc h1 h2; exact ⟨h1, h2⟩
  | cons s ss ih =>
    intro acc h1 h2
    obtain ⟨g1, g2⟩ := pushEdges_len s acc h1 h2
    simpa using ih (pushEdges s acc) g1 g2

lemma foldLeds_len (ls : List MatchedLed) :
    ∀ acc : List Pt2 × List Pt3 × List String,
      acc.1.length = acc.2.1.length → acc.1.length = acc.2.2.length →
      (ls.foldl (fun a l => pushLed l a) acc).1.length
          = (ls.foldl (fun a l => pushLed l a) acc).2.1.length
        ∧ (ls.foldl (fun a l => pushLed l a) acc).1.length
          = (ls.foldl (fun a l => pushLed l a) acc).2.2.length := by
  induction ls with
  | nil => intro acc h1 h2; exact ⟨h1, h2⟩
  | cons l ls ih =>
    intro acc h1 h2
    obtain ⟨g1, g2⟩ := pushLed_len l acc h1 h2
    simpa using ih (pushLed l acc) g1 g2

end Strip

/-- C8: the strip-aware matcher always returns its three correspondence
arrays (2D points, 3D points, feature ids) with equal lengths, and
reports `success` only when that common length is at least
`minFeaturesForPnP = 4` (the value fixed by the constructor and never
altered by `setSensitivity`). -/
theorem c8_strip_match_invariants (m : JsMath) (sens : Strip.Sens)
    (hmin : sens.minFeaturesForPnP = 4)
    (leds : List Strip.LedCand) (strips : List Strip.StripBlob) (aspect : ℚ) :
    ((Strip.stripMatch m sens leds strips aspect).points2D.length
        = (Strip.stripMatch m sens leds strips aspect).points3D.length
      ∧ (Strip.stripMatch m sens leds strips aspect).points2D.length
        = (Strip.stripMatch m sens leds strips aspect).featureIds.length)
    ∧ ((Strip.stripMatch m sens leds strips aspect).success = true →
        4 ≤ (Strip.stripMatch m sens leds strips aspect).points2D.length) := by
  have hS := Strip.foldEdges_len (Strip.matchStrips strips) ([], [], []) rfl rfl
  have hL := Strip.foldLeds_len
    (Strip.matchLEDs m sens leds (Strip.matchStrips strips))
    ((Strip.matchStrips strips).foldl (fun a s => Strip.pushEdges s a) ([], [], []))
    hS.1 hS.2
  constructor
  · exact ⟨hL.1, hL.2⟩
  · intro hsucc
    simp only [Strip.stripMatch, Bool.and_eq_true, decide_eq_true_eq] at hsucc
    simpa [Strip.stripMatch, hmin] using hsucc.1

/-- C8 witness: the invariants at the default sensitivity on a concrete
frame (no candidates at all). -/
theorem c8_strip_match_witness :
    Strip.defaultSens.minFeaturesForPnP = 4
    ∧ (((Strip.stripMatch demoMath Strip.defaultSens [] [] (16/9)).points2D.length
          = (Strip.stripMatch demoMath Strip.defaultSens [] [] (16/9)).points3D.length
        ∧ (Strip.stripMatch demoMath Strip.defaultSens [] [] (16/9)).points2D.length
          = (Strip.stripMatch demoMath Strip.defaultSens [] [] (16/9)).featureIds.length)
      ∧ ((Strip.stripMatch demoMath Strip.defaultSens [] [] (16/9)).success = true →
          4 ≤ (Strip.stripMatch demoMath Strip.defaultSens [] [] (16/9)).points2D.length)) :=
  ⟨rfl, c8_strip_match_invariants demoMath Strip.defaultSens rfl [] [] (16/9)⟩

-- ===================================================================
-- PnP solver (src/pnp-solver.js)
-- ===================================================================

namespace PnP

/-- Matrix entry access (`A[i][j]`), with 0 outside the stored extent. -/
def get2 (A : List (List ℚ)) (i j : ℕ) : ℚ := (A.getD i []).getD j 0

/-- Sum over `k < n` of `f k`. -/
def sumRange (n : ℕ) (f : ℕ → ℚ) : ℚ := (List.range n).foldl (fun s k => s + f k) 0

/-- The `n × n` identity matrix (initial `V` of the Jacobi iteration). -/
def identityMat (n : ℕ) : List (List ℚ) :=
  (List.range n).map (fun i => (List.range n).map (fun j => if i = j then (1 : ℚ) else 0))

/-- Largest-magnitude strictly-upper-diagonal entry of `S` (JS scan with
`maxVal = 0, p = 0, q = 1` and strict improvement). -/
def offDiagMax (S : List (List ℚ)) (n : ℕ) : ℕ × ℕ × ℚ :=
  ((List.range n).flatMap (fun i => ((List.range n).filter (fun j => i < j)).map (fun j => (i, j)))).foldl
    (fun acc ij =>
      if |get2 S ij.1 ij.2| > acc.2.2 then (ij.1, ij.2, |get2 S ij.1 ij.2|) else acc)
    (0, 1, 0)

/-- One 2×2 Jacobi rotation applied to `S` (columns then rows `p`, `q`)
and to the eigenvector accumulator `V` (columns). -/
def jacobiStep (m : JsMath) (S V : List (List ℚ)) (n p q : ℕ) :
    List (List ℚ) × List (List ℚ) :=
  let theta := (1/2) * m.atan2 (2 * get2 S p q) (get2 S p p - get2 S q q)
  let c := m.cos theta
  let s := m.sin theta
  let S1 := (List.range n).map (fun i => (List.range n).map (fun j =>
    if j = p then c * get2 S i p + s * get2 S i q
    else if j = q then -s * get2 S i p + c * get2 S i q
    else get2 S i j))
  let S2 := (List.range n).map (fun i => (List.range n).map (fun j =>
    if i = p then c * get2 S1 p j + s * get2 S1 q j
    else if i = q then -s * get2 S1 p j + c * get2 S1 q j
    else get2 S1 i j))
  let V1 := (List.range n).map (fun i => (List.range n).map (fun j =>
    if j = p then c * get2 V i p + s * get2 V i q
    else if j = q then -s * get2 V i p + c * get2 V i q
    else get2 V i j))
  (S2, V1)

/-- The bounded Jacobi sweep: stop when the largest off-diagonal entry
falls below `1e-12` or the iteration budget runs out. -/
def jacobiLoop (m : JsMath) : ℕ → List (List ℚ) → List (List ℚ) → ℕ →
    List (List ℚ) × List (List ℚ)
  | 0, S, V, _ => (S, V)
  | fuel + 1, S, V, n =>
    let md := offDiagMax S n
    if md.2.2 < 1/10^12 then (S, V)
    else
      let SV := jacobiStep m S V n md.1 md.2.1
      jacobiLoop m fuel SV.1 SV.2 n

/-- Result of the Jacobi eigendecomposition. -/
structure EigenResult where
  eigenvalues : List ℚ
  eigenvectors : List (List ℚ)

/-- JS `PnPSolver._jacobiEigen(A, n, maxIter = 100)`. -/
def jacobiEigen (m : JsMath) (A : List (List ℚ)) (n : ℕ) (maxIter : ℕ := 100) : EigenResult :=
  let SV := jacobiLoop m maxIter A (identityMat n) n
  { eigenvalues := (List.range n).map (fun i => get2 SV.1 i i)
    eigenvectors := SV.2 }

/-- Result of `_svd` (only `V` is produced by the JS code). -/
structure SvdResult where
  V : List (List ℚ)

/-- JS `PnPSolver._svd(A)`: Jacobi eigendecomposition of `AᵀA` with the
eigenvector columns sorted by ascending eigenvalue.  The JS function
always returns an object (never `null`), modelled by an unconditional
`some`. -/
def svd (m : JsMath) (A : List (List ℚ)) : Option SvdResult :=
  let mm := A.length
  let n := (A.getD 0 []).length
  let AtA := (List.range n).map (fun i => (List.range n).map (fun j =>
    sumRange mm (fun k => get2 A k i * get2 A k j)))
  let eig := jacobiEigen m AtA n
  let indices := sortBy (fun a b => eig.eigenvalues.getD a 0 ≤ eig.eigenvalues.getD b 0)
    (List.range n)
  some { V := (List.range n).map (fun i =>
    indices.map (fun idx => get2 eig.eigenvectors i idx)) }

/-- `3×3` matrix product. -/
def mat3x3Mul (A B : List (List ℚ)) : List (List ℚ) :=
  (List.range 3).map (fun i => (List.range 3).map (fun j =>
    sumRange 3 (fun k => get2 A i k * get2 B k j)))

/-- `3×3` transpose. -/
def mat3x3Transpose (A : List (List ℚ)) : List (List ℚ) :=
  (List.range 3).map (fun i => (List.range 3).map (fun j => get2 A j i))

/-- `3×3` determinant. -/
def det3x3 (M : List (List ℚ)) : ℚ :=
  get2 M 0 0 * (get2 M 1 1 * get2 M 2 2 - get2 M 1 2 * get2 M 2 1)
    - get2 M 0 1 * (get2 M 1 0 * get2 M 2 2 - get2 M 1 2 * get2 M 2 0)
    + get2 M 0 2 * (get2 M 1 0 * get2 M 2 1 - get2 M 1 1 * get2 M 2 0)

/-- Frobenius norm (`_matNorm`). -/
def matNorm (m : JsMath) (M : List (List ℚ)) : ℚ :=
  m.sqrt (M.foldl (fun s row => row.foldl (fun s' v => s' + v * v) s) 0)

/-- JS `PnPSolver._closestRotationMatrix(M)`. -/
def closestRotationMatrix (m : JsMath) (M : List (List ℚ)) : List (List ℚ) :=
  let MtM := mat3x3Mul (mat3x3Transpose M) M
  let eig := jacobiEigen m MtM 3
  let sInv := eig.eigenvalues.map (fun v => if v > 1/10^10 then 1 / m.sqrt v else 0)
  let R := (List.range 3).map (fun i => (List.range 3).map (fun j =>
    sumRange 3 (fun k => get2 M i k *
      sumRange 3 (fun l => get2 eig.eigenvectors k l * sInv.getD l 0 * get2 eig.eigenvectors j l))))
  if det3x3 R < 0 then
    (List.range 3).map (fun i => (List.range 3).map (fun j =>
      if j = 2 then -(get2 R i j) else get2 R i j))
  else R

/-- A rotation-translation pair. -/
structure RT where
  R : List (List ℚ)
  t : List ℚ

/-- JS `PnPSolver._dltEstimate(objPts, normImgPts)`.  The `if
(!svdResult) return null` branch is kept even though `_svd` always
returns a value. -/
def dltEstimate (m : JsMath) (objPts : List Pt3) (normImgPts : List Pt2) : Option RT :=
  let A := (objPts.zip normImgPts).flatMap (fun oq =>
    let X := oq.1.x
    let Y := oq.1.y
    let Z := oq.1.z
    let u := oq.2.x
    let v := oq.2.y
    [[X, Y, Z, 1, 0, 0, 0, 0, -u * X, -u * Y, -u * Z, -u],
     [0, 0, 0, 0, X, Y, Z, 1, -v * X, -v * Y, -v * Z, -v]])
  match svd m A with
  | none => none
  | some svdResult =>
    let p := svdResult.V.map (fun row => row.getD (row.length - 1) 0)
    let rApprox :=
      [[p.getD 0 0, p.getD 1 0, p.getD 2 0],
       [p.getD 4 0, p.getD 5 0, p.getD 6 0],
       [p.getD 8 0, p.getD 9 0, p.getD 10 0]]
    let t := [p.getD 3 0, p.getD 7 0, p.getD 11 0]
    let R := closestRotationMatrix m rApprox
    let scale := matNorm m rApprox / matNorm m R
    let tScaled := t.map (fun v => v / scale)
    if tScaled.getD 2 0 < 0 then
      some { R := (List.range 3).map (fun i => (List.range 3).map (fun j => -(get2 R i j)))
             t := tScaled.map (fun v => -v) }
    else
      some { R := R, t := tScaled }

/-- JS `PnPSolver._rodrigues(rvec)`. -/
def rodrigues (m : JsMath) (rvec : List ℚ) : List (List ℚ) :=
  let r0 := rvec.getD 0 0
  let r1 := rvec.getD 1 0
  let r2 := rvec.getD 2 0
  let theta := m.sqrt (r0 * r0 + r1 * r1 + r2 * r2)
  if theta < 1/10^10 then [[1, 0, 0], [0, 1, 0], [0, 0, 1]]
  else
    let k0 := r0 / theta
    let k1 := r1 / theta
    let k2 := r2 / theta
    let ct := m.cos theta
    let st := m.sin theta
    let vt := 1 - ct
    [[ct + k0 * k0 * vt, k0 * k1 * vt - k2 * st, k0 * k2 * vt + k1 * st],
     [k1 * k0 * vt + k2 * st, ct + k1 * k1 * vt, k1 * k2 * vt - k0 * st],
     [k2 * k0 * vt - k1 * st, k2 * k1 * vt + k0 * st, ct + k2 * k2 * vt]]

/-- JS `PnPSolver._rotMatToRodrigues(R)`. -/
def rotMatToRodrigues (m : JsMath) (R : List (List ℚ)) : List ℚ :=
  let theta := m.acos (max (-1) (min 1 ((get2 R 0 0 + get2 R 1 1 + get2 R 2 2 - 1) / 2)))
  if theta < 1/10^10 then [0, 0, 0]
  else
    let factor := theta / (2 * m.sin theta)
    [factor * (get2 R 2 1 - get2 R 1 2),
     factor * (get2 R 0 2 - get2 R 2 0),
     factor * (get2 R 1 0 - get2 R 0 1)]

/-- JS `PnPSolver._rotMatToEuler(R)`: `(roll, pitch, yaw)` in degrees. -/
def rotMatToEuler (m : JsMath) (R : List (List ℚ)) : ℚ × ℚ × ℚ :=
  let sy := m.sqrt (get2 R 0 0 * get2 R 0 0 + get2 R 1 0 * get2 R 1 0)
  let toDeg := 180 / m.pi
  if sy < 1/10^6 then
    (m.atan2 (-(get2 R 1 2)) (get2 R 1 1) * toDeg,
     m.atan2 (-(get2 R 2 0)) sy * toDeg,
     0)
  else
    (m.atan2 (get2 R 2 1) (get2 R 2 2) * toDeg,
     m.atan2 (-(get2 R 2 0)) sy * toDeg,
     m.atan2 (get2 R 1 0) (get2 R 0 0) * toDeg)

/-- Transformed depth `pz` of an object point under `(R, t)`. -/
def depthAt (R : List (List ℚ)) (t : List ℚ) (o : Pt3) : ℚ :=
  get2 R 2 0 * o.x + get2 R 2 1 * o.y + get2 R 2 2 * o.z + t.getD 2 0

/-- Transformed `px` of an object point under `(R, t)`. -/
def pxAt (R : List (List ℚ)) (t : List ℚ) (o : Pt3) : ℚ :=
  get2 R 0 0 * o.x + get2 R 0 1 * o.y + get2 R 0 2 * o.z + t.getD 0 0

/-- Transformed `py` of an object point under `(R, t)`. -/
def pyAt (R : List (List ℚ)) (t : List ℚ) (o : Pt3) : ℚ :=
  get2 R 1 0 * o.x + get2 R 1 1 * o.y + get2 R 1 2 * o.z + t.getD 1 0

/-- The residual list of `_computeResiduals` over paired points: a
degenerate depth (`|pz| < 1e-10`) contributes `(0, 0)`. -/
def residPairs (R : List (List ℚ)) (t : List ℚ) : List (Pt3 × Pt2) → List ℚ
  | [] => []
  | (o, q) :: rest =>
    let pz := depthAt R t o
    if |pz| < 1/10^10 then 0 :: 0 :: residPairs R t rest
    else (pxAt R t o / pz - q.x) :: (pyAt R t o / pz - q.y) :: residPairs R t rest

/-- JS `PnPSolver._computeResiduals` (the JS loop indexes both arrays by
`i`; the `zip` is identical for the equal-length lists the solver
passes). -/
def computeResiduals (objPts : List Pt3) (normImgPts : List Pt2)
    (R : List (List ℚ)) (t : List ℚ) : List ℚ :=
  residPairs R t (objPts.zip normImgPts)

/-- The residual list computed inside `_computeJacobian`: this variant
uses `invZ = 0` for degenerate depth, so a degenerate point contributes
`(-u, -v)` rather than `(0, 0)`. -/
def jacResidPairs (R : List (List ℚ)) (t : List ℚ) : List (Pt3 × Pt2) → List ℚ
  | [] => []
  | (o, q) :: rest =>
    let pz := depthAt R t o
    let invZ := if 1/10^10 < |pz| then 1 / pz else 0
    (pxAt R t o * invZ - q.x) :: (pyAt R t o * invZ - q.y) :: jacResidPairs R t rest

/-- Central step size of the numerical Jacobian. -/
def eps : ℚ := 1/10^6

/-- Projection of `o` under the 6-parameter pose `params`
(`[rvec, tvec]`), with the `invZ = 0` degenerate-depth convention. -/
def projAt (m : JsMath) (params : List ℚ) (o : Pt3) : ℚ × ℚ :=
  let Rp := rodrigues m [params.getD 0 0, params.getD 1 0, params.getD 2 0]
  let tp := [params.getD 3 0, params.getD 4 0, params.getD 5 0]
  let pz := depthAt Rp tp o
  let invZ := if 1/10^10 < |pz| then 1 / pz else 0
  (pxAt Rp tp o * invZ, pyAt Rp tp o * invZ)

/-- `params` with `eps` added at position `j`. -/
def perturb (params : List ℚ) (j : ℕ) : List ℚ :=
  params.set j (params.getD j 0 + eps)

/-- The `2n × 6` forward-difference Jacobian of `_computeJacobian`
(row-major; the JS code fills it column by column, computing the
perturbed rotation once per column — as pure functions the per-entry
recomputation is identical). -/
def jacobian (m : JsMath) (pairs : List (Pt3 × Pt2)) (params : List ℚ)
    (baseRes : List ℚ) : List (List ℚ) :=
  pairs.enum.flatMap (fun ioq =>
    let i := ioq.1
    let o := ioq.2.1
    let q := ioq.2.2
    [(List.range 6).map (fun j =>
        ((projAt m (perturb params j) o).1 - q.x - baseRes.getD (2 * i) 0) / eps),
     (List.range 6).map (fun j =>
        ((projAt m (perturb params j) o).2 - q.y - baseRes.getD (2 * i + 1) 0) / eps)])

/-- JS `PnPSolver._computeJacobian`: residuals (with the `invZ`
convention) and the numerical Jacobian. -/
def computeJacobian (m : JsMath) (objPts : List Pt3) (normImgPts : List Pt2)
    (R : List (List ℚ)) (t : List ℚ) (rvec : List ℚ) : List ℚ × List (List ℚ) :=
  let pairs := objPts.zip normImgPts
  let residuals := jacResidPairs R t pairs
  (residuals, jacobian m pairs (rvec ++ t) residuals)

/-- JS `PnPSolver._matMulTranspose(J)` = `Jᵀ J`. -/
def matMulT (J : List (List ℚ)) : List (List ℚ) :=
  let n := (J.getD 0 []).length
  (List.range n).map (fun i => (List.range n).map (fun j =>
    sumRange J.length (fun k => get2 J k i * get2 J k j)))

/-- JS `PnPSolver._matVecMulTranspose(J, r)` = `Jᵀ r`. -/
def matVecMulT (J : List (List ℚ)) (r : List ℚ) : List ℚ :=
  let n := (J.getD 0 []).length
  (List.range n).map (fun i => sumRange J.length (fun k => get2 J k i * r.getD k 0))

/-- The damping `JtJ[i][i] *= (1 + λ)` applied to the 6 diagonal
entries. -/
def dampDiag (A : List (List ℚ)) (lam : ℚ) : List (List ℚ) :=
  (List.range 6).map (fun i => (List.range 6).map (fun j =>
    if i = j then get2 A i j * (1 + lam) else get2 A i j))

/-- Swap two rows of the augmented matrix. -/
def swapRows (aug : List (List ℚ)) (i j : ℕ) : List (List ℚ) :=
  (List.range 6).map (fun r =>
    if r = i then aug.getD j [] else if r = j then aug.getD i [] else aug.getD r [])

/-- The elimination step of `_solve6x6` after the pivot row `maxRow`
has been selected: swap it into place and clear the entries below it
(JS touches only the entries `j ≥ col` of each lower row). -/
def eliminateCol (aug : List (List ℚ)) (col maxRow : ℕ) : List (List ℚ) :=
  let aug1 := swapRows aug col maxRow
  let pivot := get2 aug1 col col
  (List.range 6).map (fun r =>
    if col < r then
      let factor := get2 aug1 r col / pivot
      (List.range 7).map (fun j =>
        if col ≤ j then get2 aug1 r j - factor * get2 aug1 col j else get2 aug1 r j)
    else aug1.getD r [])

/-- Partial pivoting and elimination of one column of `_solve6x6`;
`none` when the best pivot magnitude is below `1e-12`. -/
def pivotAndEliminate (aug : List (List ℚ)) (col : ℕ) : Option (List (List ℚ)) :=
  let pick := (((List.range 6).filter (fun r => col ≤ r)).foldl
    (fun acc r => if |get2 aug r col| > acc.2 then (r, |get2 aug r col|) else acc)
    (col, |get2 aug col col|))
  if pick.2 < 1/10^12 then none
  else some (eliminateCol aug col pick.1)

/-- Back substitution of `_solve6x6` (JS fills `x` from `i = 5` down,
reading the already-filled entries). -/
def backSub (aug : List (List ℚ)) : List ℚ :=
  (List.range 6).reverse.foldl (fun x i =>
    let s := (((List.range 6).filter (fun j => i < j)).foldl
      (fun s j => s - get2 aug i j * x.getD j 0) (get2 aug i 6))
    x.set i (s / get2 aug i i)) (List.replicate 6 0)

/-- Row `i` of the augmented matrix `[A | b]`. -/
def aug0Row (A : List (List ℚ)) (b : List ℚ) (i : ℕ) : List ℚ :=
  (A.getD i []) ++ [b.getD i 0]

/-- The forward-elimination pass of `_solve6x6` over columns `0..5`. -/
def forwardElim (aug : List (List ℚ)) : Option (List (List ℚ)) :=
  (List.range 6).foldl
    (fun st col => match st with
      | none => none
      | some a => pivotAndEliminate a col)
    (some aug)

/-- JS `PnPSolver._solve6x6(A, b)`. -/
def solve6x6 (A : List (List ℚ)) (b : List ℚ) : Option (List ℚ) :=
  match forwardElim ((List.range 6).map (fun i => aug0Row A b i)) with
  | none => none
  | some aug => some (backSub aug)

lemma forwardElim_none_of_first (aug : List (List ℚ))
    (h : pivotAndEliminate aug 0 = none) : forwardElim aug = none := by
  have hr : List.range 6 = [0, 1, 2, 3, 4, 5] := rfl
  unfold forwardElim
  rw [hr]
  simp only [List.foldl_cons, List.foldl_nil]
  rw [h]

/-- The Levenberg-Marquardt iteration state. -/
structure LMState where
  rvec : List ℚ
  tvec : List ℚ
  lambda : ℚ

/-- The damped normal-equation solve of one LM iteration. -/
def lmSystem (m : JsMath) (objPts : List Pt3) (nimg : List Pt2) (s : LMState) :
    Option (List ℚ) :=
  let rj := computeJacobian m objPts nimg (rodrigues m s.rvec) s.tvec s.rvec
  solve6x6 (dampDiag (matMulT rj.2) s.lambda) (matVecMulT rj.2 rj.1)

/-- Sum of squares (`reduce((s, r) => s + r * r, 0)`). -/
def sumSq (l : List ℚ) : ℚ := l.foldl (fun s r => s + r * r) 0

/-- Total squared `_computeResiduals` residual at an LM state — the
quantity the acceptance test `newErr < oldErr` recomputes at the
candidate parameters. -/
def lmErr (m : JsMath) (objPts : List Pt3) (nimg : List Pt2) (s : LMState) : ℚ :=
  sumSq (computeResiduals objPts nimg (rodrigues m s.rvec) s.tvec)

/-- The candidate state of one LM step: parameters moved by `delta`,
`λ` halved (`lambda *= 0.5` on acceptance). -/
def lmCandidate (s : LMState) (delta : List ℚ) : LMState :=
  { rvec := [s.rvec.getD 0 0 + delta.getD 0 0, s.rvec.getD 1 0 + delta.getD 1 0,
             s.rvec.getD 2 0 + delta.getD 2 0]
    tvec := [s.tvec.getD 0 0 + delta.getD 3 0, s.tvec.getD 1 0 + delta.getD 4 0,
             s.tvec.getD 2 0 + delta.getD 5 0]
    lambda := s.lambda * (1/2) }

/-- One iteration of the LM loop; the `Bool` is the `break` signal
(singular system, or negligible improvement after an accepted step).
`newErr` is `lmErr` at the candidate (literally
`sumSq (computeResiduals …)` at the moved parameters); `oldErr` is the
squared residual computed inside `_computeJacobian`. -/
def lmIter (m : JsMath) (objPts : List Pt3) (nimg : List Pt2) (s : LMState) :
    LMState × Bool :=
  let rj := computeJacobian m objPts nimg (rodrigues m s.rvec) s.tvec s.rvec
  match lmSystem m objPts nimg s with
  | none => (s, true)
  | some delta =>
    let s' := lmCandidate s delta
    let oldErr := sumSq rj.1
    let newErr := lmErr m objPts nimg s'
    if newErr < oldErr then
      if |oldErr - newErr| < 1/10^10 then (s', true) else (s', false)
    else
      ({ s with lambda := s.lambda * 2 }, false)

/-- The bounded LM loop. -/
def lmLoop (m : JsMath) (objPts : List Pt3) (nimg : List Pt2) : ℕ → LMState → LMState
  | 0, s => s
  | fuel + 1, s =>
    let st := lmIter m objPts nimg s
    if st.2 then st.1 else lmLoop m objPts nimg fuel st.1

/-- JS `PnPSolver._levenbergMarquardt(objPts, normImgPts, R0, t0,
maxIter = 30)`. -/
def levenbergMarquardt (m : JsMath) (objPts : List Pt3) (nimg : List Pt2)
    (R0 : List (List ℚ)) (t0 : List ℚ) (maxIter : ℕ := 30) : RT :=
  let s0 : LMState := { rvec := rotMatToRodrigues m R0, tvec := t0, lambda := 1/1000 }
  let sf := lmLoop m objPts nimg maxIter s0
  { R := rodrigues m sf.rvec, t := sf.tvec }

/-- Camera intrinsics (`fx`, `fy`, `cx`, `cy`). -/
structure Intrinsics where
  fx : ℚ
  fy : ℚ
  cx : ℚ
  cy : ℚ

/-- Constructor defaults of `PnPSolver`. -/
def defaultIntrinsics : Intrinsics := ⟨1000, 1000, 640, 360⟩

/-- JS `PnPSolver._computeReprojError`. -/
def computeReprojError (m : JsMath) (intr : Intrinsics) (objPts : List Pt3)
    (imgPts : List Pt2) (R : List (List ℚ)) (t : List ℚ) : ℚ :=
  let sumSqE := (objPts.zip imgPts).foldl (fun acc oq =>
    let pz := depthAt R t oq.1
    if |pz| < 1/10^10 then acc
    else
      let uProj := intr.fx * (pxAt R t oq.1 / pz) + intr.cx
      let vProj := intr.fy * (pyAt R t oq.1 / pz) + intr.cy
      acc + (uProj - oq.2.x) * (uProj - oq.2.x) + (vProj - oq.2.y) * (vProj - oq.2.y)) 0
  m.sqrt (sumSqE / objPts.length)

/-- The pose record of a successful solve. -/
structure Pose where
  rvec : List ℚ
  tvec : List ℚ
  roll : ℚ
  pitch : ℚ
  yaw : ℚ
  distance : ℚ
  reprojError : ℚ
  R : List (List ℚ)

/-- Result of `PnPSolver.solve`: either `{success: false, error}` or the
full pose payload with `success: true`. -/
inductive SolveResult where
  | fail (error : String)
  | ok (pose : Pose)

/-- The `success` flag of a solve result. -/
def SolveResult.success : SolveResult → Bool
  | .fail _ => false
  | .ok _ => true

/-- The diagnostic reason of a failed solve. -/
def SolveResult.error : SolveResult → Option String
  | .fail e => some e
  | .ok _ => none

/-- JS `PnPSolver.solve(objectPoints, imagePoints)`. -/
def solve (m : JsMath) (intr : Intrinsics) (objectPoints : List Pt3)
    (imagePoints : List Pt2) : SolveResult :=
  if objectPoints.length < 4 ∨ objectPoints.length ≠ imagePoints.length then
    .fail "Need at least 4 point correspondences"
  else
    let normImgPts := imagePoints.map (fun p =>
      Pt2.mk ((p.x - intr.cx) / intr.fx) ((p.y - intr.cy) / intr.fy))
    match dltEstimate m objectPoints normImgPts with
    | none => .fail "DLT failed"
    | some initial =>
      let refined := levenbergMarquardt m objectPoints normImgPts initial.R initial.t 30
      let reprojError := computeReprojError m intr objectPoints imagePoints refined.R refined.t
      let euler := rotMatToEuler m refined.R
      let rvec := rotMatToRodrigues m refined.R
      let tvec := refined.t
      let t0 := tvec.getD 0 0
      let t1 := tvec.getD 1 0
      let t2 := tvec.getD 2 0
      .ok { rvec := rvec, tvec := tvec
            roll := euler.1, pitch := euler.2.1, yaw := euler.2.2
            distance := m.sqrt (t0 * t0 + t1 * t1 + t2 * t2) / 1000
            reprojError := reprojError, R := refined.R }

lemma dlt_isSome (m : JsMath) (objPts : List Pt3) (normImgPts : List Pt2) :
    (dltEstimate m objPts normImgPts).isSome = true := by
  simp only [dltEstimate, svd]
  split <;> rfl

lemma resid_agree (R : List (List ℚ)) (t : List ℚ) :
    ∀ pairs : List (Pt3 × Pt2),
      (∀ p ∈ pairs, 1/10^10 < |depthAt R t p.1|) →
      jacResidPairs R t pairs = residPairs R t pairs := by
  intro pairs
  induction pairs with
  | nil => intro _; rfl
  | cons p rest ih =>
    intro h
    obtain ⟨o, q⟩ := p
    have hp : 1/10^10 < |depthAt R t o| := h (o, q) (by simp)
    have hnot : ¬ |depthAt R t o| < 1/10^10 := not_lt.mpr (le_of_lt hp)
    simp only [jacResidPairs, residPairs, if_pos hp, if_neg hnot,
      ih (fun p hp' => h p (by simp [hp']))]
    rw [mul_one_div, mul_one_div]

/-- No transformed depth at the LM state `s` is within `1e-10` of zero,
so the `_computeJacobian` and `_computeResiduals` residuals coincide. -/
def depthsOk (m : JsMath) (objPts : List Pt3) (s : LMState) : Prop :=
  ∀ o ∈ objPts, 1/10^10 < |depthAt (rodrigues m s.rvec) s.tvec o|

lemma residPairs_degenerate (R : List (List ℚ)) (t : List ℚ) :
    ∀ (pairs : List (Pt3 × Pt2)) (i : ℕ), i < pairs.length →
      |depthAt R t (pairs.getD i default).1| < 1/10^10 →
      (residPairs R t pairs).getD (2 * i) 1 = 0
        ∧ (residPairs R t pairs).getD (2 * i + 1) 1 = 0 := by
  intro pairs
  induction pairs with
  | nil => intro i hi; simp at hi
  | cons p rest ih =>
    intro i hi hdeg
    obtain ⟨o, q⟩ := p
    cases i with
    | zero =>
      simp only [List.getD_cons_zero] at hdeg
      simp only [residPairs, if_pos hdeg]
      exact ⟨rfl, rfl⟩
    | succ i' =>
      have hi' : i' < rest.length := by simpa using hi
      have hdeg' : |depthAt R t (rest.getD i' default).1| < 1/10^10 := by
        simpa using hdeg
      have hrec := ih i' hi' hdeg'
      have h2 : 2 * (i' + 1) = 2 * i' + 1 + 1 := by omega
      simp only [residPairs]
      split
      · rw [h2]
        simpa using hrec
      · rw [h2]
        simpa using hrec

end PnP

/-- C3: with fewer than 4 correspondences or mismatched list lengths,
`PnPSolver.solve` returns `{success: false}` with the diagnostic reason
string, for every camera and every `Math` record; the embedding is a
total function, so no exception is possible. -/
theorem c3_solve_insufficient (m : JsMath) (intr : PnP.Intrinsics)
    (obj : List Pt3) (img : List Pt2)
    (h : obj.length < 4 ∨ obj.length ≠ img.length) :
    PnP.solve m intr obj img = .fail "Need at least 4 point correspondences"
      ∧ (PnP.solve m intr obj img).success = false
      ∧ (PnP.solve m intr obj img).error = some "Need at least 4 point correspondences" := by
  have h1 : PnP.solve m intr obj img = .fail "Need at least 4 point correspondences" := by
    simp [PnP.solve, h]
  exact ⟨h1, by rw [h1]; rfl, by rw [h1]; rfl⟩

/-- C3 witness: the guard at the concrete empty input. -/
theorem c3_solve_insufficient_witness :
    (([] : List Pt3).length < 4 ∨ ([] : List Pt3).length ≠ ([] : List Pt2).length)
    ∧ (PnP.solve trivMath PnP.defaultIntrinsics [] []
          = .fail "Need at least 4 point correspondences"
      ∧ (PnP.solve trivMath PnP.defaultIntrinsics [] []).success = false
      ∧ (PnP.solve trivMath PnP.defaultIntrinsics [] []).error
          = some "Need at least 4 point correspondences") :=
  ⟨Or.inl (by decide),
    c3_solve_insufficient trivMath PnP.defaultIntrinsics [] [] (Or.inl (by decide))⟩

/-- C10: when the precondition holds (≥ 4 correspondences of equal
count), `solve` returns `success: true`: the `'DLT failed'` branch is
unreachable because `_svd` (a bounded Jacobi iteration) always returns
an eigenvector matrix, so `_dltEstimate` never returns null. -/
theorem c10_solve_succeeds (m : JsMath) (intr : PnP.Intrinsics)
    (obj : List Pt3) (img : List Pt2)
    (h4 : 4 ≤ obj.length) (hlen : obj.length = img.length) :
    (PnP.solve m intr obj img).success = true
    ∧ (PnP.dltEstimate m obj (img.map (fun p =>
        Pt2.mk ((p.x - intr.cx) / intr.fx) ((p.y - intr.cy) / intr.fy)))).isSome = true := by
  have hguard : ¬ (obj.length < 4 ∨ obj.length ≠ img.length) := by
    push_neg
    exact ⟨by omega, hlen⟩
  refine ⟨?_, PnP.dlt_isSome m obj _⟩
  obtain ⟨rt, hrt⟩ := Option.isSome_iff_exists.mp (PnP.dlt_isSome m obj
    (img.map (fun p => Pt2.mk ((p.x - intr.cx) / intr.fx) ((p.y - intr.cy) / intr.fy))))
  simp only [PnP.solve, if_neg hguard, hrt]
  rfl

/-- C10 witness: success on a concrete 4-point correspondence set. -/
theorem c10_solve_succeeds_witness :
    (4 ≤ ([⟨0,0,0⟩, ⟨1,0,0⟩, ⟨0,1,0⟩, ⟨0,0,1⟩] : List Pt3).length
      ∧ ([⟨0,0,0⟩, ⟨1,0,0⟩, ⟨0,1,0⟩, ⟨0,0,1⟩] : List Pt3).length
          = ([⟨0,0⟩, ⟨1,0⟩, ⟨0,1⟩, ⟨1,1⟩] : List Pt2).length)
    ∧ ((PnP.solve trivMath PnP.defaultIntrinsics
          [⟨0,0,0⟩, ⟨1,0,0⟩, ⟨0,1,0⟩, ⟨0,0,1⟩] [⟨0,0⟩, ⟨1,0⟩, ⟨0,1⟩, ⟨1,1⟩]).success = true
      ∧ (PnP.dltEstimate trivMath [⟨0,0,0⟩, ⟨1,0,0⟩, ⟨0,1,0⟩, ⟨0,0,1⟩]
          (([⟨0,0⟩, ⟨1,0⟩, ⟨0,1⟩, ⟨1,1⟩] : List Pt2).map (fun p =>
            Pt2.mk ((p.x - PnP.defaultIntrinsics.cx) / PnP.defaultIntrinsics.fx)
              ((p.y - PnP.defaultIntrinsics.cy) / PnP.defaultIntrinsics.fy)))).isSome = true) :=
  ⟨⟨by decide, by decide⟩,
    c10_solve_succeeds trivMath PnP.defaultIntrinsics
      [⟨0,0,0⟩, ⟨1,0,0⟩, ⟨0,1,0⟩, ⟨0,0,1⟩] [⟨0,0⟩, ⟨1,0⟩, ⟨0,1⟩, ⟨1,1⟩]
      (by decide) (by decide)⟩

/-- C4: one LM iteration never increases the total squared residual
(when no transformed depth is degenerate, so that the residuals used by
the acceptance test and the Jacobian agree); a step that changes the
parameters is an accepted step: it strictly decreases the residual and
halves `λ`; a step that leaves them unchanged either was the singular
break (state unchanged entirely) or was rejected with `λ` doubled. -/
theorem c4_lm_step_monotone (m : JsMath) (obj : List Pt3) (nimg : List Pt2)
    (s : PnP.LMState) (hdeg : PnP.depthsOk m obj s) :
    PnP.lmErr m obj nimg (PnP.lmIter m obj nimg s).1 ≤ PnP.lmErr m obj nimg s
    ∧ (((PnP.lmIter m obj nimg s).1.rvec ≠ s.rvec
          ∨ (PnP.lmIter m obj nimg s).1.tvec ≠ s.tvec) →
        PnP.lmErr m obj nimg (PnP.lmIter m obj nimg s).1 < PnP.lmErr m obj nimg s
          ∧ (PnP.lmIter m obj nimg s).1.lambda = s.lambda * (1/2))
    ∧ (((PnP.lmIter m obj nimg s).1.rvec = s.rvec
          ∧ (PnP.lmIter m obj nimg s).1.tvec = s.tvec) →
        (PnP.lmIter m obj nimg s).1 = s
          ∨ (PnP.lmIter m obj nimg s).1.lambda = s.lambda * 2) := by
  have hagree : (PnP.computeJacobian m obj nimg (PnP.rodrigues m s.rvec) s.tvec s.rvec).1
      = PnP.computeResiduals obj nimg (PnP.rodrigues m s.rvec) s.tvec := by
    simp only [PnP.computeJacobian, PnP.computeResiduals]
    exact PnP.resid_agree _ _ _ (fun p hp => hdeg p.1 (List.of_mem_zip hp).1)
  have hold : PnP.sumSq (PnP.computeJacobian m obj nimg
        (PnP.rodrigues m s.rvec) s.tvec s.rvec).1 = PnP.lmErr m obj nimg s := by
    rw [hagree]; rfl
  unfold PnP.lmIter
  cases hsys : PnP.lmSystem m obj nimg s with
  | none =>
    refine ⟨le_refl _, ?_, fun _ => Or.inl rfl⟩
    intro hne
    rcases hne with h | h <;> exact absurd rfl h
  | some delta =>
    simp only []
    split_ifs with hlt hsmall
    · rw [hold] at hlt
      exact ⟨le_of_lt hlt, fun _ => ⟨hlt, rfl⟩, fun hEq => by
        rw [show PnP.lmErr m obj nimg (PnP.lmCandidate s delta)
            = PnP.lmErr m obj nimg s from by
          unfold PnP.lmErr; rw [hEq.1, hEq.2]] at hlt
        exact absurd hlt (lt_irrefl _)⟩
    · rw [hold] at hlt
      exact ⟨le_of_lt hlt, fun _ => ⟨hlt, rfl⟩, fun hEq => by
        rw [show PnP.lmErr m obj nimg (PnP.lmCandidate s delta)
            = PnP.lmErr m obj nimg s from by
          unfold PnP.lmErr; rw [hEq.1, hEq.2]] at hlt
        exact absurd hlt (lt_irrefl _)⟩
    · refine ⟨le_refl _, ?_, fun _ => Or.inr rfl⟩
      intro hne
      rcases hne with h | h <;> exact absurd rfl h

/-- C4 witness: a single LM iteration at a concrete non-degenerate
state (one object point at depth 6). -/
theorem c4_lm_step_monotone_witness :
    PnP.depthsOk trivMath [⟨0, 0, 1⟩] ⟨[0, 0, 0], [0, 0, 5], 1/1000⟩
    ∧ (PnP.lmErr trivMath [⟨0, 0, 1⟩] [⟨0, 0⟩]
          (PnP.lmIter trivMath [⟨0, 0, 1⟩] [⟨0, 0⟩] ⟨[0, 0, 0], [0, 0, 5], 1/1000⟩).1
        ≤ PnP.lmErr trivMath [⟨0, 0, 1⟩] [⟨0, 0⟩] ⟨[0, 0, 0], [0, 0, 5], 1/1000⟩) := by
  have hdeg : PnP.depthsOk trivMath [⟨0, 0, 1⟩] ⟨[0, 0, 0], [0, 0, 5], 1/1000⟩ := by
    intro o ho
    simp only [List.mem_singleton] at ho
    subst ho
    norm_num [PnP.depthAt, PnP.rodrigues, PnP.get2, trivMath]
  exact ⟨hdeg,
    (c4_lm_step_monotone trivMath [⟨0, 0, 1⟩] [⟨0, 0⟩] ⟨[0, 0, 0], [0, 0, 5], 1/1000⟩ hdeg).1⟩

/-- C6: (i) a correspondence whose transformed depth satisfies
`|z| < 1e-10` contributes exactly `(0, 0)` to the residual vector; and
(ii) when the damped 6×6 normal-equation solve is singular (pivot below
`1e-12`, i.e. `_solve6x6` returns null), the LM iteration stops with the
state unchanged — in particular, if this happens at the initial state
the whole refinement loop returns that (DLT) estimate untouched. -/
theorem c6_degenerate_and_singular :
    (∀ (R : List (List ℚ)) (t : List ℚ) (pairs : List (Pt3 × Pt2)) (i : ℕ),
      i < pairs.length →
      |PnP.depthAt R t (pairs.getD i default).1| < 1/10^10 →
      (PnP.residPairs R t pairs).getD (2 * i) 1 = 0
        ∧ (PnP.residPairs R t pairs).getD (2 * i + 1) 1 = 0)
    ∧ (∀ (m : JsMath) (obj : List Pt3) (nimg : List Pt2) (s : PnP.LMState),
      PnP.lmSystem m obj nimg s = none →
      PnP.lmIter m obj nimg s = (s, true)
        ∧ ∀ fuel, PnP.lmLoop m obj nimg fuel s = s) := by
  constructor
  · exact fun R t pairs i hi hdeg => PnP.residPairs_degenerate R t pairs i hi hdeg
  · intro m obj nimg s hsing
    have hiter : PnP.lmIter m obj nimg s = (s, true) := by
      unfold PnP.lmIter
      rw [hsing]
    refine ⟨hiter, ?_⟩
    intro fuel
    cases fuel with
    | zero => rfl
    | succ fuel' =>
      simp [PnP.lmLoop, hiter]

set_option maxHeartbeats 2000000 in
lemma jacobian_zero_example :
    PnP.computeJacobian trivMath [⟨0, 0, 0⟩] [⟨3, 4⟩]
      (PnP.rodrigues trivMath [0, 0, 0]) [0, 0, 0] [0, 0, 0]
    = ([-3, -4], [[0, 0, 0, 0, 0, 0], [0, 0, 0, 0, 0, 0]]) := by
  norm_num [PnP.computeJacobian, PnP.jacResidPairs, PnP.jacobian, PnP.projAt,
    PnP.perturb, PnP.eps, PnP.depthAt, PnP.pxAt, PnP.pyAt, PnP.rodrigues, PnP.get2,
    trivMath, List.range, List.range.loop, List.enum, List.enumFrom, Prod.ext_iff]

lemma matMulT_zero_example :
    PnP.matMulT [[0, 0, 0, 0, 0, 0], [0, 0, 0, 0, 0, 0]]
    = [[0, 0, 0, 0, 0, 0], [0, 0, 0, 0, 0, 0], [0, 0, 0, 0, 0, 0],
       [0, 0, 0, 0, 0, 0], [0, 0, 0, 0, 0, 0], [0, 0, 0, 0, 0, 0]] := by
  norm_num [PnP.matMulT, PnP.get2, PnP.sumRange, List.range, List.range.loop]

lemma matVecMulT_zero_example :
    PnP.matVecMulT [[0, 0, 0, 0, 0, 0], [0, 0, 0, 0, 0, 0]] [-3, -4]
    = [0, 0, 0, 0, 0, 0] := by
  norm_num [PnP.matVecMulT, PnP.get2, PnP.sumRange, List.range, List.range.loop]

lemma dampDiag_zero_example :
    PnP.dampDiag [[0, 0, 0, 0, 0, 0], [0, 0, 0, 0, 0, 0], [0, 0, 0, 0, 0, 0],
       [0, 0, 0, 0, 0, 0], [0, 0, 0, 0, 0, 0], [0, 0, 0, 0, 0, 0]] (1/1000)
    = [[0, 0, 0, 0, 0, 0], [0, 0, 0, 0, 0, 0], [0, 0, 0, 0, 0, 0],
       [0, 0, 0, 0, 0, 0], [0, 0, 0, 0, 0, 0], [0, 0, 0, 0, 0, 0]] := by
  norm_num [PnP.dampDiag, PnP.get2, List.range, List.range.loop]

set_option maxHeartbeats 1000000 in
lemma pivot_zero_example :
    PnP.pivotAndEliminate [[0, 0, 0, 0, 0, 0, 0], [0, 0, 0, 0, 0, 0, 0], [0, 0, 0, 0, 0, 0, 0],
       [0, 0, 0, 0, 0, 0, 0], [0, 0, 0, 0, 0, 0, 0], [0, 0, 0, 0, 0, 0, 0]] 0 = none := by
  norm_num [PnP.pivotAndEliminate, PnP.get2, List.range, List.range.loop]

lemma solve6x6_zero_example :
    PnP.solve6x6 [[0, 0, 0, 0, 0, 0], [0, 0, 0, 0, 0, 0], [0, 0, 0, 0, 0, 0],
       [0, 0, 0, 0, 0, 0], [0, 0, 0, 0, 0, 0], [0, 0, 0, 0, 0, 0]] [0, 0, 0, 0, 0, 0]
    = none := by
  have haug : (List.range 6).map (fun i => PnP.aug0Row
      [[(0 : ℚ), 0, 0, 0, 0, 0], [0, 0, 0, 0, 0, 0], [0, 0, 0, 0, 0, 0],
       [0, 0, 0, 0, 0, 0], [0, 0, 0, 0, 0, 0], [0, 0, 0, 0, 0, 0]] [0, 0, 0, 0, 0, 0] i)
      = [[0, 0, 0, 0, 0, 0, 0], [0, 0, 0, 0, 0, 0, 0], [0, 0, 0, 0, 0, 0, 0],
         [0, 0, 0, 0, 0, 0, 0], [0, 0, 0, 0, 0, 0, 0], [0, 0, 0, 0, 0, 0, 0]] := rfl
  unfold PnP.solve6x6
  rw [haug, PnP.forwardElim_none_of_first _ pivot_zero_example]

lemma lmSystem_singular_example :
    PnP.lmSystem trivMath [⟨0, 0, 0⟩] [⟨3, 4⟩] ⟨[0, 0, 0], [0, 0, 0], 1/1000⟩ = none := by
  show PnP.solve6x6 _ _ = none
  rw [show (⟨[0, 0, 0], [0, 0, 0], 1/1000⟩ : PnP.LMState).rvec = [0, 0, 0] from rfl,
    show (⟨[0, 0, 0], [0, 0, 0], 1/1000⟩ : PnP.LMState).tvec = [0, 0, 0] from rfl,
    show (⟨[0, 0, 0], [0, 0, 0], 1/1000⟩ : PnP.LMState).lambda = 1/1000 from rfl,
    jacobian_zero_example]
  rw [show (((-3 : ℚ) :: [-4], [[0, 0, 0, 0, 0, 0], [(0 : ℚ), 0, 0, 0, 0, 0]]).2
      = [[(0 : ℚ), 0, 0, 0, 0, 0], [0, 0, 0, 0, 0, 0]]) from rfl]
  rw [matMulT_zero_example, dampDiag_zero_example]
  rw [show (((-3 : ℚ) :: [-4], [[0, 0, 0, 0, 0, 0], [(0 : ℚ), 0, 0, 0, 0, 0]]).1
      = [(-3 : ℚ), -4]) from rfl]
  rw [matVecMulT_zero_example]
  exact solve6x6_zero_example

/-- C6 witness: (i) the zero contribution at a concrete degenerate
correspondence (object point at the camera center, depth 0); (ii) the
unchanged state at a concrete LM state whose damped normal equations
are singular. -/
theorem c6_degenerate_and_singular_witness :
    (|PnP.depthAt [[1,0,0],[0,1,0],[0,0,1]] [0,0,0]
        ((([((⟨0,0,0⟩ : Pt3), (⟨1,2⟩ : Pt2))] : List (Pt3 × Pt2)).getD 0 default).1)| < 1/10^10
      ∧ (PnP.residPairs [[1,0,0],[0,1,0],[0,0,1]] [0,0,0]
            [((⟨0,0,0⟩ : Pt3), (⟨1,2⟩ : Pt2))]).getD 0 1 = 0
      ∧ (PnP.residPairs [[1,0,0],[0,1,0],[0,0,1]] [0,0,0]
            [((⟨0,0,0⟩ : Pt3), (⟨1,2⟩ : Pt2))]).getD 1 1 = 0)
    ∧ (PnP.lmSystem trivMath [⟨0, 0, 0⟩] [⟨3, 4⟩] ⟨[0, 0, 0], [0, 0, 0], 1/1000⟩ = none
      ∧ PnP.lmIter trivMath [⟨0, 0, 0⟩] [⟨3, 4⟩] ⟨[0, 0, 0], [0, 0, 0], 1/1000⟩
          = (⟨[0, 0, 0], [0, 0, 0], 1/1000⟩, true)
      ∧ ∀ fuel, PnP.lmLoop trivMath [⟨0, 0, 0⟩] [⟨3, 4⟩] fuel ⟨[0, 0, 0], [0, 0, 0], 1/1000⟩
          = ⟨[0, 0, 0], [0, 0, 0], 1/1000⟩) := by
  have hdeg : |PnP.depthAt [[1,0,0],[0,1,0],[0,0,1]] [0,0,0]
      ((([((⟨0,0,0⟩ : Pt3), (⟨1,2⟩ : Pt2))] : List (Pt3 × Pt2)).getD 0 default).1)| < 1/10^10 := by
    norm_num [PnP.depthAt, PnP.get2]
  have hres := c6_degenerate_and_singular.1 [[1,0,0],[0,1,0],[0,0,1]] [0,0,0]
    [((⟨0,0,0⟩ : Pt3), (⟨1,2⟩ : Pt2))] 0 (by decide) hdeg
  have hsing := c6_degenerate_and_singular.2 trivMath [⟨0, 0, 0⟩] [⟨3, 4⟩]
    ⟨[0, 0, 0], [0, 0, 0], 1/1000⟩ lmSystem_singular_example
  exact ⟨⟨hdeg, by simpa using hres.1, by simpa using hres.2⟩,
    ⟨lmSystem_singular_example, hsing.1, hsing.2⟩⟩

-- ===================================================================
-- Peak detector (src/peak-detector.js)
-- ===================================================================

namespace Peak

/-- Configuration of `PeakDetector` (constructor defaults in
`defaultConfig`). -/
structure Config where
  nmsRadius : ℕ
  minPeakScore : ℚ
  minPointiness : ℚ
  minIsotropy : ℚ
  maxCandidates : ℕ
  brightnessWeight : ℚ
  blueDiffWeight : ℚ

/-- The constructor defaults. -/
def defaultConfig : Config := ⟨3, 80, 3/2, 3/10, 15, 7/10, 3/10⟩

/-- The detector's reusable buffers and remembered dimensions.  A
`Float32Array` is modelled as a total function `ℕ → ℚ` (reads outside
the written extent yield 0). -/
structure BufState where
  scoreMap : ℕ → ℚ
  smoothed : ℕ → ℚ
  tempBlur : ℕ → ℚ
  lastW : ℕ
  lastH : ℕ

/-- One frame of input to `detect`. -/
structure Frame where
  mask : ℕ → ℚ
  brightness : ℕ → ℚ
  blueDiff : ℕ → ℚ
  width : ℕ
  height : ℕ
  downscale : ℚ
  bluePixels : Option (List ℕ)

/-- JS `_ensureBuffers`: on a dimension change both buffers are
reallocated (fresh zeroed arrays); otherwise they are `fill(0)`-ed.
Either way the score buffers are all-zero afterwards. -/
def ensureBuffers (s : BufState) (w h : ℕ) : BufState :=
  if s.lastW ≠ w ∨ s.lastH ≠ h then
    { scoreMap := fun _ => 0, smoothed := fun _ => 0, tempBlur := s.tempBlur
      lastW := w, lastH := h }
  else
    { s with scoreMap := fun _ => 0, smoothed := fun _ => 0 }

lemma ensureBuffers_eq (s : BufState) (w h : ℕ) :
    ensureBuffers s w h
      = { scoreMap := fun _ => 0, smoothed := fun _ => 0, tempBlur := s.tempBlur
          lastW := w, lastH := h } := by
  unfold ensureBuffers
  split
  · rfl
  · rename_i hc
    push_neg at hc
    obtain ⟨h1, h2⟩ := hc
    cases s
    simp only at h1 h2
    subst h1
    subst h2
    rfl

/-- The per-pixel score `brightness·bw + blueDiff·dw`, with the
saturated-LED floor (`≥ 80%` of brightness when `brightness > 200`). -/
def scoreAt (cfg : Config) (f : Frame) (i : ℕ) : ℚ :=
  let baseScore := f.brightness i * cfg.brightnessWeight + f.blueDiff i * cfg.blueDiffWeight
  if f.brightness i > 200 then max baseScore (f.brightness i * (8/10)) else baseScore

/-- JS `_computeScoreMap`: in sparse mode only the listed indices are
written; in the dense fallback only in-range pixels passing the
mask/brightness test are written.  Unwritten entries keep the (cleared)
buffer value `base`. -/
def computeScoreMap (cfg : Config) (f : Frame) (base : ℕ → ℚ) : ℕ → ℚ :=
  match f.bluePixels with
  | some bps =>
    if bps.length ≠ 0 then
      fun i => if i ∈ bps then scoreAt cfg f i else base i
    else
      fun i => if i < f.width * f.height ∧ (f.mask i > 0 ∨ f.brightness i > 200)
        then scoreAt cfg f i else base i
  | none =>
    fun i => if i < f.width * f.height ∧ (f.mask i > 0 ∨ f.brightness i > 200)
      then scoreAt cfg f i else base i

/-- JS `_boxBlur3x3`: separable 3×3 box blur; returns the blurred map
and the horizontal-pass scratch buffer (the JS `_tempBlur`, zeroed and
fully rewritten each call).  Each branch is the last JS write to the
pixel (for `width = 1` the right-edge write wins; for `height = 1` the
bottom-edge write wins). -/
def boxBlur (width height : ℕ) (input : ℕ → ℚ) : (ℕ → ℚ) × (ℕ → ℚ) :=
  let t : ℕ → ℚ := fun idx =>
    if idx < width * height then
      let y := idx / width
      let x := idx % width
      let row := y * width
      if x = width - 1 then (input (row + width - 2) + input (row + width - 1) * 2) / 3
      else if x = 0 then (input row * 2 + input (row + 1)) / 3
      else (input (idx - 1) + input idx + input (idx + 1)) / 3
    else 0
  let out : ℕ → ℚ := fun idx =>
    if idx < width * height then
      let y := idx / width
      if y = height - 1 then (t (idx - width) + t idx * 2) / 3
      else if y = 0 then (t idx * 2 + t (idx + width)) / 3
      else (t (idx - width) + t idx + t (idx + width)) / 3
    else 0
  (out, t)

/-- A raw NMS peak. -/
structure RawPeak where
  x : ℕ
  y : ℕ
  score : ℚ

/-- JS `_nms`: scan the sparse index list (or all pixels at/above the
score floor), keep window-maximal pixels, sort by descending score and
cap at `2 × maxCandidates`. -/
def nms (cfg : Config) (smoothed : ℕ → ℚ) (width height : ℕ)
    (bluePixels : Option (List ℕ)) : List RawPeak :=
  let fallback := (List.range (width * height)).filter
    (fun i => cfg.minPeakScore ≤ smoothed i)
  let pixelsToCheck :=
    match bluePixels with
    | some bps => if bps.length ≠ 0 then bps else fallback
    | none => fallback
  let peaks := pixelsToCheck.filterMap (fun idx =>
    let val := smoothed idx
    if val < cfg.minPeakScore then none
    else
      let x := idx % width
      let y := (idx - x) / width
      let yMin := y - cfg.nmsRadius
      let yMax := min (height - 1) (y + cfg.nmsRadius)
      let xMin := x - cfg.nmsRadius
      let xMax := min (width - 1) (x + cfg.nmsRadius)
      let isMax := (List.range (yMax + 1 - yMin)).all (fun dy =>
        (List.range (xMax + 1 - xMin)).all (fun dx =>
          let nx := xMin + dx
          let ny := yMin + dy
          decide ((nx = x ∧ ny = y) ∨ ¬ smoothed (ny * width + nx) > val)))
      if isMax then some ⟨x, y, val⟩ else none)
  (sortBy (fun a b => b.score ≤ a.score) peaks).take (cfg.maxCandidates * 2)

/-- JS `_subPixelRefine`: score²-weighted centroid over a small window,
clamped to the frame. -/
def subPixelRefine (scoreMap : ℕ → ℚ) (cx cy width height radius : ℕ) : ℚ × ℚ :=
  let ys := List.range (min (height - 1) (cy + radius) + 1 - (cy - radius))
  let xs := List.range (min (width - 1) (cx + radius) + 1 - (cx - radius))
  let sums := ys.foldl (fun acc dy =>
    xs.foldl (fun acc' dx =>
      let x := (cx - radius) + dx
      let y := (cy - radius) + dy
      let w := scoreMap (y * width + x)
      if w > 0 then
        (acc'.1 + w * w, acc'.2.1 + (x : ℚ) * (w * w), acc'.2.2 + (y : ℚ) * (w * w))
      else acc') acc) ((0 : ℚ), (0 : ℚ), (0 : ℚ))
  if sums.1 > 0 then
    (max 0 (min ((width : ℚ) - 1) (sums.2.1 / sums.1)),
     max 0 (min ((height : ℚ) - 1) (sums.2.2 / sums.1)))
  else ((cx : ℚ), (cy : ℚ))

/-- JS `_computePointiness`: center score over the mean score on the
ring at (Euclidean) distance 3–5. -/
def computePointiness (m : JsMath) (scoreMap : ℕ → ℚ) (cx cy width height : ℕ) : ℚ :=
  let centerVal := scoreMap (cy * width + cx)
  if centerVal ≤ 0 then 0
  else
    let offs := (List.range 11).map (fun k => (k : ℤ) - 5)
    let ring := offs.foldl (fun acc dy =>
      offs.foldl (fun acc' dx =>
        let py := (cy : ℤ) + dy
        let px := (cx : ℤ) + dx
        if 0 ≤ py ∧ py < (height : ℤ) ∧ 0 ≤ px ∧ px < (width : ℤ) then
          let dist := m.sqrt ((dx : ℚ) * (dx : ℚ) + (dy : ℚ) * (dy : ℚ))
          if 3 ≤ dist ∧ dist ≤ 5 then
            (acc'.1 + scoreMap (py.toNat * width + px.toNat), acc'.2 + 1)
          else acc'
        else acc') acc) ((0 : ℚ), (0 : ℕ))
    let ringAvg := if ring.2 > 0 then ring.1 / (ring.2 : ℚ) else 0
    centerVal / max 1 ringAvg

/-- JS `_computeIsotropy`: ratio of the smaller to the larger of the
horizontal/vertical falloffs at radius 4. -/
def computeIsotropy (scoreMap : ℕ → ℚ) (cx cy width height : ℕ) : ℚ :=
  let centerVal := scoreMap (cy * width + cx)
  if centerVal ≤ 0 then 0
  else
    let left := if 4 ≤ cx then scoreMap (cy * width + (cx - 4)) else 0
    let right := if cx + 4 < width then scoreMap (cy * width + (cx + 4)) else 0
    let hFall := centerVal - (left + right) / 2
    let top := if 4 ≤ cy then scoreMap ((cy - 4) * width + cx) else 0
    let bottom := if cy + 4 < height then scoreMap ((cy + 4) * width + cx) else 0
    let vFall := centerVal - (top + bottom) / 2
    let maxFall := max hFall vFall
    let minFall := min hFall vFall
    if maxFall ≤ 0 then 0 else max 0 minFall / maxFall

/-- JS `_estimateArea`: pixels at ≥ 50% of the peak score in a radius-5
window. -/
def estimateArea (scoreMap : ℕ → ℚ) (cx cy width height : ℕ) (peakScore : ℚ) : ℕ :=
  let threshold := peakScore * (1/2)
  let ys := List.range (min (height - 1) (cy + 5) + 1 - (cy - 5))
  let xs := List.range (min (width - 1) (cx + 5) + 1 - (cx - 5))
  ys.foldl (fun acc dy =>
    xs.foldl (fun acc' dx =>
      let x := (cx - 5) + dx
      let y := (cy - 5) + dy
      if threshold ≤ scoreMap (y * width + x) then acc' + 1 else acc') acc) 0

/-- A peak-detector candidate (all the fields the JS object carries). -/
structure Candidate where
  x : ℚ
  y : ℚ
  px : ℚ
  py : ℚ
  area : ℚ
  brightness : ℚ
  maxBrightness : ℚ
  realBrightness : ℚ
  maxRealBrightness : ℚ
  bboxX : ℚ
  bboxY : ℚ
  bboxW : ℚ
  bboxH : ℚ
  downscale : ℚ
  peakScore : ℚ
  pointiness : ℚ
  isotropy : ℚ
  isPeak : Bool

/-- Build one candidate from a raw peak (JS `detect`, step 5). -/
def mkCandidate (m : JsMath) (f : Frame) (smoothed : ℕ → ℚ) (peak : RawPeak) : Candidate :=
  let refined := subPixelRefine smoothed peak.x peak.y f.width f.height 2
  let pointiness := computePointiness m smoothed peak.x peak.y f.width f.height
  let isotropy := computeIsotropy smoothed peak.x peak.y f.width f.height
  let area := estimateArea smoothed peak.x peak.y f.width f.height peak.score
  let idx := peak.y * f.width + peak.x
  let peakBlueDiff := f.blueDiff idx
  let peakBrightness := f.brightness idx
  { x := refined.1 / (f.width : ℚ), y := refined.2 / (f.height : ℚ)
    px := refined.1, py := refined.2
    area := max 1 (area : ℚ)
    brightness := peakBlueDiff, maxBrightness := peakBlueDiff
    realBrightness := peakBrightness, maxRealBrightness := peakBrightness
    bboxX := ((peak.x - 3 : ℕ) : ℚ) / (f.width : ℚ)
    bboxY := ((peak.y - 3 : ℕ) : ℚ) / (f.height : ℚ)
    bboxW := ((min 7 f.width : ℕ) : ℚ) / (f.width : ℚ)
    bboxH := ((min 7 f.height : ℕ) : ℚ) / (f.height : ℚ)
    downscale := f.downscale
    peakScore := peak.score, pointiness := pointiness, isotropy := isotropy
    isPeak := true }

/-- JS `PeakDetector.detect`: returns the candidate list and the
detector state after the call (buffers as left behind by this call). -/
def detect (m : JsMath) (cfg : Config) (s : BufState) (f : Frame) :
    List Candidate × BufState :=
  let s1 := ensureBuffers s f.width f.height
  let score := computeScoreMap cfg f s1.scoreMap
  let bt := boxBlur f.width f.height score
  let rawPeaks := nms cfg bt.1 f.width f.height f.bluePixels
  let candidates := rawPeaks.map (fun peak => mkCandidate m f bt.1 peak)
  let filtered := candidates.filter (fun c =>
    decide (cfg.minPointiness ≤ c.pointiness ∧ cfg.minIsotropy ≤ c.isotropy))
  let sorted := sortBy (fun a b =>
    b.peakScore * b.pointiness * b.isotropy ≤ a.peakScore * a.pointiness * a.isotropy) filtered
  (sorted.take cfg.maxCandidates,
   { scoreMap := score, smoothed := bt.1, tempBlur := bt.2
     lastW := f.width, lastH := f.height })

lemma detect_state_indep (m : JsMath) (cfg : Config) (f : Frame) (s s' : BufState) :
    detect m cfg s f = detect m cfg s' f := by
  unfold detect
  rw [ensureBuffers_eq, ensureBuffers_eq]

end Peak

/-- C9: `detect` is a pure function of its inputs — the reused internal
buffers are cleared and fully rewritten on every call — so running it
twice on identical inputs yields the identical candidate list. -/
theorem c9_detect_idempotent (m : JsMath) (cfg : Peak.Config) (s : Peak.BufState)
    (f : Peak.Frame) :
    (Peak.detect m cfg (Peak.detect m cfg s f).2 f).1 = (Peak.detect m cfg s f).1 := by
  rw [Peak.detect_state_indep m cfg f (Peak.detect m cfg s f).2 s]

end WebLightTag
